import Mathlib

/-!
Shallow embedding of `src/packageChecker.ts` of niradler/dependency-mcp.

JavaScript strings are modelled as Lean `String` (a wrapper around
`List Char`); JS `undefined`/absent object keys are modelled as `Option`
values being `none`; a thrown JS value is a `JsThrown`; a function that can
throw returns `Except JsThrown α`.  Real time is abstracted: the value of
`new Date().toISOString()` during a call is a `now : String` parameter, and
the rate-limiting / backoff sleeps (which only delay, never change results)
are not represented.  The network is an oracle (`NetOracle`) mapping each
request the code can issue (identified by the data that determines its URL,
plus an attempt counter for the retried Maven requests) to an outcome.
-/

/-- A JavaScript thrown value: either an `Error` instance carrying its
`.message`, or any other (non-`Error`) thrown value. -/
inductive JsThrown where
  | error (msg : String)
  | nonError
deriving DecidableEq, Repr

/-- `error instanceof Error ? error.message : 'Unknown error'`
(packageChecker.ts line 103). -/
def errMessage : JsThrown → String
  | .error m => m
  | .nonError => "Unknown error"

/-- `error instanceof Error ? error : new Error('Unknown error')`
(packageChecker.ts line 338). -/
def toError : JsThrown → JsThrown
  | .error m => .error m
  | .nonError => .error "Unknown error"

/-- JS `x || y` on possibly-undefined strings: `y` when `x` is undefined or
the empty string (falsy), else `x`. -/
def jsOrStr (a b : Option String) : Option String :=
  match a with
  | some s => if s = "" then b else some s
  | none => b

/-- Spread-override for a field present in the base object literal:
`{field: base, ...x, ...y}` — `y`'s value wins, then `x`'s, then `base`. -/
def jsOverride {α : Type} (base : α) (x y : Option α) : α :=
  match y with
  | some v => v
  | none => match x with
            | some v => v
            | none => base

/-- Spread-merge for an optional field: `{...x, ...y}`. -/
def jsMerge {α : Type} (x y : Option α) : Option α :=
  match y with
  | some v => some v
  | none => x

/-- The characters JavaScript's `String.prototype.trim` removes
(WhiteSpace and LineTerminator code points). -/
def jsWhitespaceChar (c : Char) : Bool :=
  c = ' ' ∨ c = '\t' ∨ c = '\n' ∨ c = '\r' ∨
  c.val = 0x000B ∨ c.val = 0x000C ∨ c.val = 0x00A0 ∨ c.val = 0x1680 ∨
  (0x2000 ≤ c.val ∧ c.val ≤ 0x200A) ∨ c.val = 0x2028 ∨ c.val = 0x2029 ∨
  c.val = 0x202F ∨ c.val = 0x205F ∨ c.val = 0x3000 ∨ c.val = 0xFEFF

/-- JS `s.trim()`: drop leading and trailing whitespace. -/
def jsTrim (s : String) : String :=
  String.mk (((s.data.dropWhile jsWhitespaceChar).reverse.dropWhile
    jsWhitespaceChar).reverse)

/-- JS `s.toLowerCase()` (ASCII-faithful; only used to form the NuGet URL). -/
def jsToLower (s : String) : String :=
  String.mk (s.data.map Char.toLower)

/-- JS `str.split(sep)` for a one-character separator, on char lists:
`"a:b".split(':') = ["a","b"]`, `"abc".split(':') = ["abc"]`,
`"".split(':') = [""]`. -/
def jsSplitChar (c : Char) : List Char → List Char → List (List Char)
  | [], acc => [acc.reverse]
  | x :: xs, acc =>
      if x = c then acc.reverse :: jsSplitChar c xs []
      else jsSplitChar c xs (x :: acc)

/-- The normalized output record (`PackageResult` in types.ts).  Optional
TS fields are `Option`s defaulting to `none` (absent key). -/
structure PackageResult where
  package : String
  registry : String
  found : Bool
  timestamp : String
  latest_version : Option String := none
  description : Option String := none
  version : Option String := none
  «exists» : Option Bool := none
  versions : Option (List String) := none
  homepage : Option String := none
  repository : Option String := none
  author : Option String := none
  error : Option String := none
deriving DecidableEq, Repr

/-- `Partial<PackageResult>`: every field optional; used for the `data` and
`additionalData` arguments of the two response constructors. -/
structure PartialResult where
  package : Option String := none
  registry : Option String := none
  found : Option Bool := none
  timestamp : Option String := none
  latest_version : Option String := none
  description : Option String := none
  version : Option String := none
  «exists» : Option Bool := none
  versions : Option (List String) := none
  homepage : Option String := none
  repository : Option String := none
  author : Option String := none
  error : Option String := none
deriving DecidableEq, Repr

/-- `PackageVersionRequest` in types.ts. -/
structure PackageVersionRequest where
  package_name : String
  version : String
deriving DecidableEq, Repr

/-- Outcome of one outbound HTTP request, as observed by `makeRequest`'s
`try`/`catch` (packageChecker.ts lines 159-196).  `success` is a 2xx
response carrying the parsed body; `axiosErr` is a rejection that
`axios.isAxiosError` recognises, with the response's `(status, statusText)`
when a response was received, the optional `error.code`, and the error's
`.message`; `thrown` is any other thrown value. -/
inductive HttpOutcome (T : Type) where
  | success (data : T)
  | axiosErr (response : Option (Nat × String)) (code : Option String)
      (msg : String)
  | thrown (v : JsThrown)

/-- `BaseRegistryHandler.makeRequest` (lines 159-196): translates the raw
outcome into either a body (`some`), a `null` for HTTP 404, or a thrown
error.  (The rate-limiting sleep of lines 160-166 only delays.) -/
def makeRequest {T : Type} (outcome : HttpOutcome T) :
    Except JsThrown (Option T) :=
  match outcome with
  | .success d => .ok (some d)
  | .axiosErr response code msg =>
      match response with
      | some (status, statusText) =>
          if status = 404 then .ok none
          else if status = 429 then
            .error (.error "Rate limit exceeded. Please try again later.")
          else if 500 ≤ status then
            .error (.error ("Server error: " ++ toString status ++ " " ++
              statusText))
          else if code = some "ENOTFOUND" ∨ code = some "ECONNREFUSED" then
            .error (.error "Network error: Unable to reach registry")
          else if code = some "ECONNABORTED" then
            .error (.error "Request timeout")
          else
            .error (.error ("HTTP " ++ toString status ++ ": " ++
              (if statusText = "" then msg else statusText)))
      | none =>
          if code = some "ENOTFOUND" ∨ code = some "ECONNREFUSED" then
            .error (.error "Network error: Unable to reach registry")
          else if code = some "ECONNABORTED" then
            .error (.error "Request timeout")
          else
            .error (.error ("HTTP undefined: " ++ msg))
  | .thrown v => .error v

/-- `MavenHandler`'s `maxRetries` (line 321). -/
def mavenMaxRetries : Nat := 3

/-- The loop of `makeRequestWithRetry` (lines 334-343): `attempt` is the
1-based attempt counter, `remaining = maxRetries - attempt + 1` the number
of attempts still allowed, `lastError` the value `throw lastError` would
raise (initially `undefined`, a non-`Error` value).  The backoff sleep of
line 340 only delays. -/
def retryGo {T : Type} (attempts : Nat → Except JsThrown (Option T))
    (attempt : Nat) (lastError : JsThrown) :
    Nat → Except JsThrown (Option T)
  | 0 => .error lastError
  | remaining + 1 =>
      match attempts attempt with
      | .ok v => .ok v
      | .error e => retryGo attempts (attempt + 1) (toError e) remaining

/-- `MavenHandler.makeRequestWithRetry` (lines 331-346), parameterized by
the outcome of each attempt. -/
def makeRequestWithRetry {T : Type}
    (maxRetries : Nat) (attempts : Nat → Except JsThrown (Option T)) :
    Except JsThrown (Option T) :=
  retryGo attempts 1 .nonError maxRetries

/-- `BaseRegistryHandler._createErrorResponse` (lines 198-207):
`{ package, registry, found: false, error: message || 'Unknown error',
timestamp, ...additionalData }`. -/
def createErrorResponse (packageName registry now msg : String)
    (additionalData : PartialResult) : PackageResult :=
  { package := jsOverride packageName none additionalData.package
    registry := jsOverride registry none additionalData.registry
    found := jsOverride false none additionalData.found
    error := jsMerge (some (if msg = "" then "Unknown error" else msg))
      additionalData.error
    timestamp := jsOverride now none additionalData.timestamp
    latest_version := additionalData.latest_version
    description := additionalData.description
    version := additionalData.version
    «exists» := additionalData.«exists»
    versions := additionalData.versions
    homepage := additionalData.homepage
    repository := additionalData.repository
    author := additionalData.author }

/-- `BaseRegistryHandler._createSuccessResponse` (lines 209-218):
`{ package, registry, found: true, timestamp, ...data, ...additionalData }`. -/
def createSuccessResponse (packageName registry now : String)
    (data additionalData : PartialResult) : PackageResult :=
  { package := jsOverride packageName data.package additionalData.package
    registry := jsOverride registry data.registry additionalData.registry
    found := jsOverride true data.found additionalData.found
    timestamp := jsOverride now data.timestamp additionalData.timestamp
    latest_version := jsMerge data.latest_version
      additionalData.latest_version
    description := jsMerge data.description additionalData.description
    version := jsMerge data.version additionalData.version
    «exists» := jsMerge data.«exists» additionalData.«exists»
    versions := jsMerge data.versions additionalData.versions
    homepage := jsMerge data.homepage additionalData.homepage
    repository := jsMerge data.repository additionalData.repository
    author := jsMerge data.author additionalData.author
    error := jsMerge data.error additionalData.error }

/-- The fields of an npm registry document that `NpmHandler` reads:
`dist-tags.latest`, `description`, the keys of `versions`, `homepage`,
`repository.url`. -/
structure NpmData where
  distTagsLatest : Option String := none
  description : Option String := none
  versionKeys : Option (List String) := none
  homepage : Option String := none
  repositoryUrl : Option String := none

/-- The fields of a PyPI document that `PypiHandler` reads. -/
structure PypiInfo where
  version : Option String := none
  summary : Option String := none
  home_page : Option String := none
  author : Option String := none

structure PypiData where
  info : Option PypiInfo := none
  releaseKeys : Option (List String) := none

/-- One `docs` entry of a Maven Solr search response. -/
structure MavenDoc where
  latestVersion : Option String := none
  v : Option String := none

structure MavenResponse where
  docs : Option (List MavenDoc) := none

structure MavenData where
  response : Option MavenResponse := none

/-- `data.response?.docs` with missing levels read as an empty list (the
code only indexes or maps `docs` after checking
`data.response?.docs?.length`). -/
def mavenDocs (d : MavenData) : List MavenDoc :=
  match d.response with
  | some r => r.docs.getD []
  | none => []

structure NugetData where
  versions : Option (List String) := none

/-- The RubyGems gem document (`/api/v1/gems/{name}.json`). -/
structure GemDoc where
  version : Option String := none
  info : Option String := none
  homepage_uri : Option String := none

/-- One entry of the RubyGems versions array
(`/api/v1/versions/{name}.json`). -/
structure GemVersion where
  number : String

structure CrateDoc where
  newest_version : Option String := none
  description : Option String := none
  homepage : Option String := none
  repository : Option String := none

structure CratesData where
  crate : Option CrateDoc := none

structure CrateVer where
  num : String

structure CratesVersionsData where
  versions : Option (List CrateVer) := none

/-- The Go module proxy `@latest` document. -/
structure GoLatestData where
  Version : Option String := none

/-- The network, as an oracle from each request the code can issue to its
outcome.  Each field is keyed by exactly the data that determines the
request URL in the source (package name, version, NuGet lower-casing,
Maven `groupId`/`artifactId`); the Maven fields additionally take the
1-based attempt number, since `makeRequestWithRetry` can issue the same
request several times.  The Go `@v/{version}.info` body is never read
(only compared against `null`), hence `Unit`. -/
structure NetOracle where
  npmPkg : String → HttpOutcome NpmData
  pypiPkg : String → HttpOutcome PypiData
  mavenSearch1 : String → String → Nat → HttpOutcome MavenData
  mavenSearchV : String → String → String → Nat → HttpOutcome MavenData
  mavenSearch50 : String → String → Nat → HttpOutcome MavenData
  nugetIndex : String → HttpOutcome NugetData
  gemsDoc : String → HttpOutcome GemDoc
  gemsVersions : String → HttpOutcome (List GemVersion)
  cratesDoc : String → HttpOutcome CratesData
  cratesVersions : String → HttpOutcome CratesVersionsData
  goLatest : String → HttpOutcome GoLatestData
  goInfo : String → String → HttpOutcome Unit
  goList : String → HttpOutcome String

/-- `list.filter(Boolean)` over JS strings that may be undefined or empty
(line 401). -/
def jsFilterTruthy (l : List (Option String)) : List String :=
  l.filterMap (fun o =>
    match o with
    | some s => if s = "" then none else some s
    | none => none)

/-- `NpmHandler.getLatestVersion` (lines 222-234). -/
def npmGetLatestVersion (ω : NetOracle) (now packageName : String) :
    Except JsThrown PackageResult := do
  let data ← makeRequest (ω.npmPkg packageName)
  match data with
  | none => return (createErrorResponse packageName "npm" now
      "Package not found" {})
  | some d => return (createSuccessResponse packageName "npm" now
      { latest_version := d.distTagsLatest
        description := d.description } {})

/-- `NpmHandler.checkVersionExists` (lines 236-249). -/
def npmCheckVersionExists (ω : NetOracle) (now packageName version : String) :
    Except JsThrown PackageResult := do
  let data ← makeRequest (ω.npmPkg packageName)
  match data with
  | none => return (createErrorResponse packageName "npm" now
      "Package not found" { version := some version })
  | some d => return (createSuccessResponse packageName "npm" now
      { version := some version
        «exists» := d.versionKeys.map (fun ks => ks.contains version) } {})

/-- `NpmHandler.getPackageInfo` (lines 251-266). -/
def npmGetPackageInfo (ω : NetOracle) (now packageName : String) :
    Except JsThrown PackageResult := do
  let data ← makeRequest (ω.npmPkg packageName)
  match data with
  | none => return (createErrorResponse packageName "npm" now
      "Package not found" {})
  | some d => return (createSuccessResponse packageName "npm" now
      { latest_version := d.distTagsLatest
        description := d.description
        versions := some (d.versionKeys.getD [])
        homepage := d.homepage
        repository := d.repositoryUrl } {})

/-- `PypiHandler.getLatestVersion` (lines 270-282). -/
def pypiGetLatestVersion (ω : NetOracle) (now packageName : String) :
    Except JsThrown PackageResult := do
  let data ← makeRequest (ω.pypiPkg packageName)
  match data with
  | none => return (createErrorResponse packageName "pypi" now
      "Package not found" {})
  | some d => return (createSuccessResponse packageName "pypi" now
      { latest_version := d.info.bind PypiInfo.version
        description := d.info.bind PypiInfo.summary } {})

/-- `PypiHandler.checkVersionExists` (lines 284-297). -/
def pypiCheckVersionExists (ω : NetOracle) (now packageName version : String) :
    Except JsThrown PackageResult := do
  let data ← makeRequest (ω.pypiPkg packageName)
  match data with
  | none => return (createErrorResponse packageName "pypi" now
      "Package not found" { version := some version })
  | some d => return (createSuccessResponse packageName "pypi" now
      { version := some version
        «exists» := d.releaseKeys.map (fun ks => ks.contains version) } {})

/-- `PypiHandler.getPackageInfo` (lines 299-314). -/
def pypiGetPackageInfo (ω : NetOracle) (now packageName : String) :
    Except JsThrown PackageResult := do
  let data ← makeRequest (ω.pypiPkg packageName)
  match data with
  | none => return (createErrorResponse packageName "pypi" now
      "Package not found" {})
  | some d => return (createSuccessResponse packageName "pypi" now
      { latest_version := d.info.bind PypiInfo.version
        description := d.info.bind PypiInfo.summary
        versions := some (d.releaseKeys.getD [])
        homepage := d.info.bind PypiInfo.home_page
        author := d.info.bind PypiInfo.author } {})

/-- Lines 349-350 / 369-370 / 385-386:
`const [groupId, artifactId] = packageName.split(':');
if (!groupId || !artifactId) ...` — `some (groupId, artifactId)` exactly
when both of the first two `':'`-separated segments are non-empty. -/
def mavenCoord (packageName : String) : Option (String × String) :=
  match jsSplitChar ':' packageName.data [] with
  | g :: a :: _ =>
      if g = [] ∨ a = [] then none else some (String.mk g, String.mk a)
  | _ => none

/-- `MavenHandler.getLatestVersion` (lines 348-366). -/
def mavenGetLatestVersion (ω : NetOracle) (now packageName : String) :
    Except JsThrown PackageResult :=
  match mavenCoord packageName with
  | none => .ok (createErrorResponse packageName "maven" now
      "Invalid format. Use groupId:artifactId" {})
  | some (groupId, artifactId) => do
      let data ← makeRequestWithRetry mavenMaxRetries
        (fun attempt => makeRequest (ω.mavenSearch1 groupId artifactId attempt))
      match data with
      | none => return (createErrorResponse packageName "maven" now
          "Package not found" {})
      | some d =>
          match mavenDocs d with
          | [] => return (createErrorResponse packageName "maven" now
              "Package not found" {})
          | doc :: _ => return (createSuccessResponse packageName "maven" now
              { latest_version := jsOrStr doc.latestVersion doc.v
                description := some ("Maven artifact: " ++ groupId ++ ":" ++
                  artifactId) } {})

/-- `MavenHandler.checkVersionExists` (lines 368-382).  Note: a `null` body
(remote 404) gives `exists = data && ... = null`, spread into the success
constructor, i.e. `found = true` with no boolean `exists`. -/
def mavenCheckVersionExists (ω : NetOracle)
    (now packageName version : String) : Except JsThrown PackageResult :=
  match mavenCoord packageName with
  | none => .ok (createErrorResponse packageName "maven" now
      "Invalid format. Use groupId:artifactId" { version := some version })
  | some (groupId, artifactId) => do
      let data ← makeRequestWithRetry mavenMaxRetries
        (fun attempt =>
          makeRequest (ω.mavenSearchV groupId artifactId version attempt))
      return (createSuccessResponse packageName "maven" now
        { version := some version
          «exists» := data.map (fun d => !(mavenDocs d).isEmpty) } {})

/-- `MavenHandler.getPackageInfo` (lines 384-403). -/
def mavenGetPackageInfo (ω : NetOracle) (now packageName : String) :
    Except JsThrown PackageResult :=
  match mavenCoord packageName with
  | none => .ok (createErrorResponse packageName "maven" now
      "Invalid format. Use groupId:artifactId" {})
  | some (groupId, artifactId) => do
      let data ← makeRequestWithRetry mavenMaxRetries
        (fun attempt =>
          makeRequest (ω.mavenSearch50 groupId artifactId attempt))
      match data with
      | none => return (createErrorResponse packageName "maven" now
          "Package not found" {})
      | some d =>
          match mavenDocs d with
          | [] => return (createErrorResponse packageName "maven" now
              "Package not found" {})
          | doc :: rest => return (createSuccessResponse packageName "maven"
              now
              { latest_version := jsOrStr doc.latestVersion doc.v
                description := some ("Maven artifact: " ++ groupId ++ ":" ++
                  artifactId)
                versions := some (jsFilterTruthy ((doc :: rest).map
                  (fun d2 => jsOrStr d2.v d2.latestVersion))) } {})

/-- `NugetHandler.getLatestVersion` (lines 407-420). -/
def nugetGetLatestVersion (ω : NetOracle) (now packageName : String) :
    Except JsThrown PackageResult := do
  let data ← makeRequest (ω.nugetIndex (jsToLower packageName))
  match data with
  | none => return (createErrorResponse packageName "nuget" now
      "Package not found" {})
  | some d =>
      match d.versions with
      | some (v0 :: vs) => return (createSuccessResponse packageName "nuget"
          now
          { latest_version := (v0 :: vs).getLast?
            description := some ("NuGet package: " ++ packageName) } {})
      | _ => return (createErrorResponse packageName "nuget" now
          "Package not found" {})

/-- `NugetHandler.checkVersionExists` (lines 422-435). -/
def nugetCheckVersionExists (ω : NetOracle)
    (now packageName version : String) : Except JsThrown PackageResult := do
  let data ← makeRequest (ω.nugetIndex (jsToLower packageName))
  match data with
  | none => return (createErrorResponse packageName "nuget" now
      "Package not found" { version := some version })
  | some d => return (createSuccessResponse packageName "nuget" now
      { version := some version
        «exists» := d.versions.map (fun vs => vs.contains version) } {})

/-- `NugetHandler.getPackageInfo` (lines 437-450). -/
def nugetGetPackageInfo (ω : NetOracle) (now packageName : String) :
    Except JsThrown PackageResult := do
  let data ← makeRequest (ω.nugetIndex (jsToLower packageName))
  match data with
  | none => return (createErrorResponse packageName "nuget" now
      "Package not found" {})
  | some d =>
      match d.versions with
      | some (v0 :: vs) => return (createSuccessResponse packageName "nuget"
          now
          { latest_version := (v0 :: vs).getLast?
            description := some ("NuGet package: " ++ packageName)
            versions := some (v0 :: vs) } {})
      | _ => return (createErrorResponse packageName "nuget" now
          "Package not found" {})

/-- `RubygemsHandler.getLatestVersion` (lines 454-466). -/
def rubygemsGetLatestVersion (ω : NetOracle) (now packageName : String) :
    Except JsThrown PackageResult := do
  let data ← makeRequest (ω.gemsDoc packageName)
  match data with
  | none => return (createErrorResponse packageName "rubygems" now
      "Package not found" {})
  | some d => return (createSuccessResponse packageName "rubygems" now
      { latest_version := d.version
        description := d.info } {})

/-- `RubygemsHandler.checkVersionExists` (lines 468-481); hits the
versions endpoint. -/
def rubygemsCheckVersionExists (ω : NetOracle)
    (now packageName version : String) : Except JsThrown PackageResult := do
  let data ← makeRequest (ω.gemsVersions packageName)
  match data with
  | none => return (createErrorResponse packageName "rubygems" now
      "Package not found" { version := some version })
  | some l => return (createSuccessResponse packageName "rubygems" now
      { version := some version
        «exists» := some (l.any (fun v => v.number == version)) } {})

/-- `RubygemsHandler.getPackageInfo` (lines 483-500); two requests; the
second's `null` (404) body fails `Array.isArray` and yields `[]`. -/
def rubygemsGetPackageInfo (ω : NetOracle) (now packageName : String) :
    Except JsThrown PackageResult := do
  let data ← makeRequest (ω.gemsDoc packageName)
  match data with
  | none => return (createErrorResponse packageName "rubygems" now
      "Package not found" {})
  | some d => do
      let versionsData ← makeRequest (ω.gemsVersions packageName)
      return (createSuccessResponse packageName "rubygems" now
        { latest_version := d.version
          description := d.info
          versions := some (match versionsData with
            | some l => l.map GemVersion.number
            | none => [])
          homepage := d.homepage_uri } {})

/-- `CratesHandler.getLatestVersion` (lines 504-516). -/
def cratesGetLatestVersion (ω : NetOracle) (now packageName : String) :
    Except JsThrown PackageResult := do
  let data ← makeRequest (ω.cratesDoc packageName)
  match data with
  | none => return (createErrorResponse packageName "crates" now
      "Package not found" {})
  | some d =>
      match d.crate with
      | none => return (createErrorResponse packageName "crates" now
          "Package not found" {})
      | some c => return (createSuccessResponse packageName "crates" now
          { latest_version := c.newest_version
            description := c.description } {})

/-- `CratesHandler.checkVersionExists` (lines 518-531). -/
def cratesCheckVersionExists (ω : NetOracle)
    (now packageName version : String) : Except JsThrown PackageResult := do
  let data ← makeRequest (ω.cratesVersions packageName)
  match data with
  | none => return (createErrorResponse packageName "crates" now
      "Package not found" { version := some version })
  | some d => return (createSuccessResponse packageName "crates" now
      { version := some version
        «exists» := d.versions.map (fun l => l.any
          (fun v => v.num == version)) } {})

/-- `CratesHandler.getPackageInfo` (lines 533-551); the second request's
missing pieces collapse to `[]` via `... || []`. -/
def cratesGetPackageInfo (ω : NetOracle) (now packageName : String) :
    Except JsThrown PackageResult := do
  let data ← makeRequest (ω.cratesDoc packageName)
  match data with
  | none => return (createErrorResponse packageName "crates" now
      "Package not found" {})
  | some d =>
      match d.crate with
      | none => return (createErrorResponse packageName "crates" now
          "Package not found" {})
      | some c => do
          let versionsData ← makeRequest (ω.cratesVersions packageName)
          return (createSuccessResponse packageName "crates" now
            { latest_version := c.newest_version
              description := c.description
              versions := some ((versionsData.bind
                (fun vd => vd.versions.map
                  (fun l => l.map CrateVer.num))).getD [])
              homepage := c.homepage
              repository := c.repository } {})

/-- `GoHandler.getLatestVersion` (lines 555-567). -/
def goGetLatestVersion (ω : NetOracle) (now packageName : String) :
    Except JsThrown PackageResult := do
  let data ← makeRequest (ω.goLatest packageName)
  match data with
  | none => return (createErrorResponse packageName "go" now
      "Package not found" {})
  | some d => return (createSuccessResponse packageName "go" now
      { latest_version := d.Version
        description := some ("Go module: " ++ packageName) } {})

/-- `GoHandler.checkVersionExists` (lines 569-577): always a success
response, `exists: data !== null`. -/
def goCheckVersionExists (ω : NetOracle) (now packageName version : String) :
    Except JsThrown PackageResult := do
  let data ← makeRequest (ω.goInfo packageName version)
  return (createSuccessResponse packageName "go" now
    { version := some version
      «exists» := some data.isSome } {})

/-- Lines 588-607: the `@v/list` fetch with its own `try`/`catch`; any
failure (it does not go through `makeRequest`, so even a 404 throws) is
swallowed, leaving `[]`. -/
def goListVersions (o : HttpOutcome String) : List String :=
  match o with
  | .success txt =>
      if txt = "" then []
      else ((jsSplitChar '\n' (jsTrim txt).data []).filter
        (fun l => l ≠ [])).map String.mk
  | _ => []

/-- `GoHandler.getPackageInfo` (lines 579-614). -/
def goGetPackageInfo (ω : NetOracle) (now packageName : String) :
    Except JsThrown PackageResult := do
  let latestData ← makeRequest (ω.goLatest packageName)
  match latestData with
  | none => return (createErrorResponse packageName "go" now
      "Package not found" {})
  | some d => return (createSuccessResponse packageName "go" now
      { latest_version := d.Version
        description := some ("Go module: " ++ packageName)
        versions := some (goListVersions (ω.goList packageName)) } {})

/-- The `Registry` union type of types.ts. -/
inductive Registry where
  | npm | pypi | maven | nuget | rubygems | crates | go
deriving DecidableEq, Repr

/-- The string value of a `Registry` tag. -/
def Registry.tag : Registry → String
  | .npm => "npm"
  | .pypi => "pypi"
  | .maven => "maven"
  | .nuget => "nuget"
  | .rubygems => "rubygems"
  | .crates => "crates"
  | .go => "go"

/-- The OWN properties of the `registryHandlers` object literal built in
the constructor (lines 8-16): exactly the seven registry keys. -/
def parseRegistry (s : String) : Option Registry :=
  if s = "npm" then some .npm
  else if s = "pypi" then some .pypi
  else if s = "maven" then some .maven
  else if s = "nuget" then some .nuget
  else if s = "rubygems" then some .rubygems
  else if s = "crates" then some .crates
  else if s = "go" then some .go
  else none

/-- The property names a plain object inherits from `Object.prototype`
(Node/V8).  `this.registryHandlers` is an object literal, so indexing it
with one of these names yields the inherited member — a truthy value —
rather than `undefined`. -/
def objectPrototypeProps : List String :=
  ["constructor", "hasOwnProperty", "isPrototypeOf",
   "propertyIsEnumerable", "toLocaleString", "toString", "valueOf",
   "__proto__", "__defineGetter__", "__defineSetter__",
   "__lookupGetter__", "__lookupSetter__"]

/-- What `this.registryHandlers[registry]` can evaluate to: one of the
seven adapters (an own key), a truthy non-handler value inherited from
`Object.prototype`, or `undefined`. -/
inductive HandlerLookup where
  | handler (r : Registry)
  | inherited
  | undefined
deriving DecidableEq, Repr

/-- The lookup `this.registryHandlers[registry]` (lines 8-16 and 21, 31,
40, 48, 59, 70): an own key gives its adapter; a name inherited from
`Object.prototype` gives that truthy member, so `if (!handler)` does NOT
throw for it; any other tag gives `undefined`. -/
def lookupHandler (s : String) : HandlerLookup :=
  match parseRegistry s with
  | some r => .handler r
  | none => if s ∈ objectPrototypeProps then .inherited else .undefined

/-- When the lookup produced an inherited `Object.prototype` member, the
subsequent method call `handler.getLatestVersion(...)` (etc.) invokes the
`undefined` property of that value and throws a `TypeError` — an `Error`
instance whose message is engine-dependent; modelled with V8/Node's
rendering of the failing expression. -/
def typeErrorNotAFunction (methodExpr : String) : JsThrown :=
  .error (methodExpr ++ " is not a function")

/-- `handler.getLatestVersion` dispatch. -/
def handlerGetLatestVersion (r : Registry) (ω : NetOracle)
    (now packageName : String) : Except JsThrown PackageResult :=
  match r with
  | .npm => npmGetLatestVersion ω now packageName
  | .pypi => pypiGetLatestVersion ω now packageName
  | .maven => mavenGetLatestVersion ω now packageName
  | .nuget => nugetGetLatestVersion ω now packageName
  | .rubygems => rubygemsGetLatestVersion ω now packageName
  | .crates => cratesGetLatestVersion ω now packageName
  | .go => goGetLatestVersion ω now packageName

/-- `handler.checkVersionExists` dispatch. -/
def handlerCheckVersionExists (r : Registry) (ω : NetOracle)
    (now packageName version : String) : Except JsThrown PackageResult :=
  match r with
  | .npm => npmCheckVersionExists ω now packageName version
  | .pypi => pypiCheckVersionExists ω now packageName version
  | .maven => mavenCheckVersionExists ω now packageName version
  | .nuget => nugetCheckVersionExists ω now packageName version
  | .rubygems => rubygemsCheckVersionExists ω now packageName version
  | .crates => cratesCheckVersionExists ω now packageName version
  | .go => goCheckVersionExists ω now packageName version

/-- `handler.getPackageInfo` dispatch. -/
def handlerGetPackageInfo (r : Registry) (ω : NetOracle)
    (now packageName : String) : Except JsThrown PackageResult :=
  match r with
  | .npm => npmGetPackageInfo ω now packageName
  | .pypi => pypiGetPackageInfo ω now packageName
  | .maven => mavenGetPackageInfo ω now packageName
  | .nuget => nugetGetPackageInfo ω now packageName
  | .rubygems => rubygemsGetPackageInfo ω now packageName
  | .crates => cratesGetPackageInfo ω now packageName
  | .go => goGetPackageInfo ω now packageName

/-- `PackageVersionChecker._validatePackageName` (lines 113-123): the
non-empty (JS falsy) check, then the raw-length check, then `trim()` on
the value that is returned. -/
def validatePackageName (packageName : String) : Except JsThrown String :=
  if packageName = "" then
    .error (.error "Package name must be a non-empty string")
  else if 500 < packageName.length then
    .error (.error "Package name too long (max 500 characters)")
  else .ok (jsTrim packageName)

/-- `PackageVersionChecker._validateVersion` (lines 125-135). -/
def validateVersion (version : String) : Except JsThrown String :=
  if version = "" then
    .error (.error "Version must be a non-empty string")
  else if 100 < version.length then
    .error (.error "Version string too long (max 100 characters)")
  else .ok (jsTrim version)

/-- `PackageVersionChecker.getLatestVersion` (lines 19-26): validation
first, then handler lookup, then the adapter call. -/
def getLatestVersion (ω : NetOracle) (now packageName registry : String) :
    Except JsThrown PackageResult := do
  let validatedPackageName ← validatePackageName packageName
  match lookupHandler registry with
  | .undefined => Except.error (.error ("Unsupported registry: " ++ registry))
  | .inherited =>
      Except.error (typeErrorNotAFunction "handler.getLatestVersion")
  | .handler r => handlerGetLatestVersion r ω now validatedPackageName

/-- `PackageVersionChecker.checkVersionExists` (lines 28-36). -/
def checkVersionExists (ω : NetOracle)
    (now packageName version registry : String) :
    Except JsThrown PackageResult := do
  let validatedPackageName ← validatePackageName packageName
  let validatedVersion ← validateVersion version
  match lookupHandler registry with
  | .undefined => Except.error (.error ("Unsupported registry: " ++ registry))
  | .inherited =>
      Except.error (typeErrorNotAFunction "handler.checkVersionExists")
  | .handler r =>
      handlerCheckVersionExists r ω now validatedPackageName validatedVersion

/-- `PackageVersionChecker.getPackageInfo` (lines 38-45). -/
def getPackageInfo (ω : NetOracle) (now packageName registry : String) :
    Except JsThrown PackageResult := do
  let validatedPackageName ← validatePackageName packageName
  match lookupHandler registry with
  | .undefined => Except.error (.error ("Unsupported registry: " ++ registry))
  | .inherited =>
      Except.error (typeErrorNotAFunction "handler.getPackageInfo")
  | .handler r => handlerGetPackageInfo r ω now validatedPackageName

/-- The synthesized per-item error record of `_processBatch`'s `catch`
(lines 99-105); `typeofName` below supplies line 98's
`typeof packageData === 'string' ? packageData : packageData.package_name`. -/
def synthResult (packageName registry now : String) (e : JsThrown) :
    PackageResult :=
  { package := packageName
    registry := registry
    found := false
    error := some (errMessage e)
    timestamp := now }

/-- The body of `packages.map(...)` in `_processBatch` (lines 94-107):
run the per-item operation, catching a throw into `synthResult`. -/
def batchSlot {T : Type} (typeofName : T → String) (registry now : String)
    (processor : T → Except JsThrown PackageResult) (packageData : T) :
    PackageResult :=
  match processor packageData with
  | .ok r => r
  | .error e => synthResult (typeofName packageData) registry now e

/-- `PackageVersionChecker._processBatch` (lines 80-111).  `_processBatch`
is generic in the item type `T`; `typeofName` is the embedding of line
98's `typeof` test, instantiated as the identity at `T = String` and as
`PackageVersionRequest.package_name` at `T = PackageVersionRequest`.
`Promise.all` over `packages.map` resolves to the results in input order,
hence `List.map`. -/
def processBatch {T : Type} (typeofName : T → String) (packages : List T)
    (registry now : String)
    (processor : T → Except JsThrown PackageResult) :
    Except JsThrown (List PackageResult) :=
  if packages.length = 0 then
    .error (.error "Packages must be a non-empty array")
  else if 100 < packages.length then
    .error (.error "Maximum 100 packages allowed per request")
  else
    .ok (packages.map (batchSlot typeofName registry now processor))

/-- `PackageVersionChecker.getLatestVersions` (lines 47-56): handler
lookup first (no per-item validation), then `_processBatch`. -/
def getLatestVersions (ω : NetOracle) (now : String)
    (packages : List String) (registry : String) :
    Except JsThrown (List PackageResult) :=
  match lookupHandler registry with
  | .undefined => .error (.error ("Unsupported registry: " ++ registry))
  | .inherited => processBatch id packages registry now
      (fun _ => .error (typeErrorNotAFunction "handler.getLatestVersion"))
  | .handler r => processBatch id packages registry now
      (fun packageName => handlerGetLatestVersion r ω now packageName)

/-- `PackageVersionChecker.checkVersionsExist` (lines 58-67). -/
def checkVersionsExist (ω : NetOracle) (now : String)
    (packages : List PackageVersionRequest) (registry : String) :
    Except JsThrown (List PackageResult) :=
  match lookupHandler registry with
  | .undefined => .error (.error ("Unsupported registry: " ++ registry))
  | .inherited => processBatch PackageVersionRequest.package_name packages
      registry now
      (fun _ => .error (typeErrorNotAFunction "handler.checkVersionExists"))
  | .handler r => processBatch PackageVersionRequest.package_name packages
      registry now
      (fun q => handlerCheckVersionExists r ω now q.package_name q.version)

/-- `PackageVersionChecker.getPackagesInfo` (lines 69-78). -/
def getPackagesInfo (ω : NetOracle) (now : String)
    (packages : List String) (registry : String) :
    Except JsThrown (List PackageResult) :=
  match lookupHandler registry with
  | .undefined => .error (.error ("Unsupported registry: " ++ registry))
  | .inherited => processBatch id packages registry now
      (fun _ => .error (typeErrorNotAFunction "handler.getPackageInfo"))
  | .handler r => processBatch id packages registry now
      (fun packageName => handlerGetPackageInfo r ω now packageName)

/-- A network on which every request receives an HTTP 404 response. -/
def oracle404 : NetOracle :=
  { npmPkg := fun _ => .axiosErr (some (404, "Not Found")) none
      "Request failed with status code 404"
    pypiPkg := fun _ => .axiosErr (some (404, "Not Found")) none
      "Request failed with status code 404"
    mavenSearch1 := fun _ _ _ => .axiosErr (some (404, "Not Found")) none
      "Request failed with status code 404"
    mavenSearchV := fun _ _ _ _ => .axiosErr (some (404, "Not Found")) none
      "Request failed with status code 404"
    mavenSearch50 := fun _ _ _ => .axiosErr (some (404, "Not Found")) none
      "Request failed with status code 404"
    nugetIndex := fun _ => .axiosErr (some (404, "Not Found")) none
      "Request failed with status code 404"
    gemsDoc := fun _ => .axiosErr (some (404, "Not Found")) none
      "Request failed with status code 404"
    gemsVersions := fun _ => .axiosErr (some (404, "Not Found")) none
      "Request failed with status code 404"
    cratesDoc := fun _ => .axiosErr (some (404, "Not Found")) none
      "Request failed with status code 404"
    cratesVersions := fun _ => .axiosErr (some (404, "Not Found")) none
      "Request failed with status code 404"
    goLatest := fun _ => .axiosErr (some (404, "Not Found")) none
      "Request failed with status code 404"
    goInfo := fun _ _ => .axiosErr (some (404, "Not Found")) none
      "Request failed with status code 404"
    goList := fun _ => .axiosErr (some (404, "Not Found")) none
      "Request failed with status code 404" }

/-- The invariant of claim C7 for one result: it carries the requested
package name, the registry tag and the generation time, and an `error`
field implies `found = false`. -/
def ResultInv (res : PackageResult) (packageName registry now : String) :
    Prop :=
  res.package = packageName ∧ res.registry = registry ∧
  res.timestamp = now ∧ (res.error ≠ none → res.found = false)

/-- Substring test on char lists (used only to state that an error message
does not mention a registry tag). -/
def listIsInfixOf (needle : List Char) : List Char → Bool
  | [] => needle.isPrefixOf []
  | c :: cs => needle.isPrefixOf (c :: cs) || listIsInfixOf needle cs

lemma length_dropWhile_le (p : Char → Bool) (l : List Char) :
    (l.dropWhile p).length ≤ l.length := by
  induction l with
  | nil => simp [List.dropWhile]
  | cons c cs ih =>
      by_cases h : p c
      · simp only [List.dropWhile, h]
        exact Nat.le_succ_of_le ih
      · simp only [List.dropWhile, h]
        simp

lemma jsTrim_length_le (s : String) : (jsTrim s).length ≤ s.length := by
  show (((s.data.dropWhile jsWhitespaceChar).reverse.dropWhile
    jsWhitespaceChar).reverse).length ≤ s.data.length
  rw [List.length_reverse]
  calc ((s.data.dropWhile jsWhitespaceChar).reverse.dropWhile
          jsWhitespaceChar).length
      ≤ (s.data.dropWhile jsWhitespaceChar).reverse.length :=
        length_dropWhile_le _ _
    _ = (s.data.dropWhile jsWhitespaceChar).length := List.length_reverse _
    _ ≤ s.data.length := length_dropWhile_le _ _

lemma dropWhile_eq_nil_of_all (p : Char → Bool) (l : List Char)
    (h : ∀ c ∈ l, p c = true) : l.dropWhile p = [] := by
  induction l with
  | nil => rfl
  | cons c cs ih =>
      simp only [List.dropWhile, h c (List.mem_cons_self c cs)]
      exact ih (fun d hd => h d (List.mem_cons_of_mem c hd))

lemma jsTrim_all_whitespace (s : String)
    (h : ∀ c ∈ s.data, jsWhitespaceChar c = true) : jsTrim s = "" := by
  unfold jsTrim
  rw [dropWhile_eq_nil_of_all _ _ h]
  rfl

/-- C5: for every Maven package name without a non-empty
`groupId`/`artifactId` pair around a colon, all three Maven adapter
operations return (never throw) a `found = false` result whose message is
exactly "Invalid format. Use groupId:artifactId", for every network
(no request is consulted). -/
theorem maven_invalid_format (packageName : String)
    (h : mavenCoord packageName = none) (ω : NetOracle)
    (now version : String) :
    mavenGetLatestVersion ω now packageName =
      .ok (createErrorResponse packageName "maven" now
        "Invalid format. Use groupId:artifactId" {}) ∧
    mavenCheckVersionExists ω now packageName version =
      .ok (createErrorResponse packageName "maven" now
        "Invalid format. Use groupId:artifactId"
        { version := some version }) ∧
    mavenGetPackageInfo ω now packageName =
      .ok (createErrorResponse packageName "maven" now
        "Invalid format. Use groupId:artifactId" {}) ∧
    (createErrorResponse packageName "maven" now
      "Invalid format. Use groupId:artifactId" {}).found = false ∧
    (createErrorResponse packageName "maven" now
      "Invalid format. Use groupId:artifactId" {}).error =
      some "Invalid format. Use groupId:artifactId" := by
  unfold mavenGetLatestVersion mavenCheckVersionExists mavenGetPackageInfo
  rw [h]
  exact ⟨rfl, rfl, rfl, rfl, rfl⟩

/-- Witness for C5 at the spec's own example input. -/
theorem maven_invalid_format_witness :
    mavenGetLatestVersion oracle404 "2024-01-01T00:00:00.000Z"
      "not-a-valid-coordinate" =
    .ok (createErrorResponse "not-a-valid-coordinate" "maven"
      "2024-01-01T00:00:00.000Z"
      "Invalid format. Use groupId:artifactId" {}) :=
  (maven_invalid_format "not-a-valid-coordinate" rfl oracle404
    "2024-01-01T00:00:00.000Z" "1.0.0").1

/-- C10 counterexample: a non-empty, all-whitespace package name of length
501 makes validation throw the length error, so "validation does not
throw" does not hold for every non-empty all-whitespace input. -/
theorem whitespace_accepted_cex :
    (String.mk (List.replicate 501 ' ')).data.all jsWhitespaceChar = true ∧
    String.mk (List.replicate 501 ' ') ≠ "" ∧
    validatePackageName (String.mk (List.replicate 501 ' ')) =
      .error (.error "Package name too long (max 500 characters)") := by
  have hlen : (String.mk (List.replicate 501 ' ')).length = 501 := by
    show (List.replicate 501 ' ').length = 501
    rw [List.length_replicate]
  have hne : String.mk (List.replicate 501 ' ') ≠ "" := by
    intro h
    have h2 : (String.mk (List.replicate 501 ' ')).length =
        ("" : String).length := by rw [h]
    rw [hlen] at h2
    exact absurd h2 (by decide)
  refine ⟨?_, hne, ?_⟩
  · refine List.all_eq_true.mpr (fun c hc => ?_)
    rw [List.eq_of_mem_replicate hc]
    rfl
  · unfold validatePackageName
    rw [if_neg hne, if_pos (by rw [hlen]; omega)]

/-- C10 amended: for every non-empty string consisting only of whitespace
whose raw length also passes the length check (at most 500 for a package
name, at most 100 for a version), validation does not throw — the
emptiness check sees the untrimmed string — and the value handed to the
adapter is the empty string. -/
theorem whitespace_accepted_amended (s : String) (hne : s ≠ "")
    (hws : ∀ c ∈ s.data, jsWhitespaceChar c = true) :
    (s.length ≤ 500 → validatePackageName s = .ok "") ∧
    (s.length ≤ 100 → validateVersion s = .ok "") := by
  constructor
  · intro hlen
    unfold validatePackageName
    rw [if_neg hne, if_neg (by omega), jsTrim_all_whitespace s hws]
  · intro hlen
    unfold validateVersion
    rw [if_neg hne, if_neg (by omega), jsTrim_all_whitespace s hws]

/-- Witness for the amended C10 at a three-space name. -/
theorem whitespace_accepted_witness :
    validatePackageName "   " = .ok "" ∧ validateVersion "   " = .ok "" := by
  have h := whitespace_accepted_amended "   " (by decide) (by decide)
  exact ⟨h.1 (by decide), h.2 (by decide)⟩

lemma validatePackageName_ok {s v : String}
    (h : validatePackageName s = .ok v) : v = jsTrim s := by
  unfold validatePackageName at h
  split at h
  · exact absurd h (by simp)
  · split at h
    · exact absurd h (by simp)
    · injection h with h'
      exact h'.symm

lemma validateVersion_ok {s v : String}
    (h : validateVersion s = .ok v) : v = jsTrim s := by
  unfold validateVersion at h
  split at h
  · exact absurd h (by simp)
  · split at h
    · exact absurd h (by simp)
    · injection h with h'
      exact h'.symm

lemma dropWhile_all_false (p : Char → Bool) (l : List Char)
    (h : ∀ c ∈ l, p c = false) : l.dropWhile p = l := by
  cases l with
  | nil => rfl
  | cons c cs => simp [List.dropWhile, h c (List.mem_cons_self c cs)]

lemma jsTrim_no_whitespace (s : String)
    (h : ∀ c ∈ s.data, jsWhitespaceChar c = false) : jsTrim s = s := by
  unfold jsTrim
  rw [dropWhile_all_false _ _ h,
    dropWhile_all_false _ _ (fun c hc => h c (List.mem_reverse.mp hc)),
    List.reverse_reverse]

lemma lookupHandler_of_parse {tag : String} {r : Registry}
    (h : parseRegistry tag = some r) : lookupHandler tag = .handler r := by
  unfold lookupHandler
  rw [h]

lemma getLatestVersion_validated (s tag : String) (r : Registry)
    (ω : NetOracle) (now v : String) (htag : parseRegistry tag = some r)
    (hval : validatePackageName s = .ok v) :
    getLatestVersion ω now s tag =
      handlerGetLatestVersion r ω now (jsTrim s) := by
  have hv := validatePackageName_ok hval
  subst hv
  unfold getLatestVersion
  rw [hval]
  show (match lookupHandler tag with
    | HandlerLookup.undefined => Except.error (JsThrown.error
        ("Unsupported registry: " ++ tag))
    | HandlerLookup.inherited =>
        Except.error (typeErrorNotAFunction "handler.getLatestVersion")
    | HandlerLookup.handler r =>
        handlerGetLatestVersion r ω now (jsTrim s)) = _
  rw [lookupHandler_of_parse htag]

/-- C8: a package name whose trimmed form is longer than 500 characters is
rejected by all three single-item operations with the length error, for
every registry tag (validation precedes registry dispatch) and every
network; and a name that passes validation reaches the adapter trimmed. -/
theorem long_name_rejected :
    (∀ (s : String), 500 < (jsTrim s).length →
      ∀ (ω : NetOracle) (now registry version : String),
        getLatestVersion ω now s registry =
          .error (.error "Package name too long (max 500 characters)") ∧
        checkVersionExists ω now s version registry =
          .error (.error "Package name too long (max 500 characters)") ∧
        getPackageInfo ω now s registry =
          .error (.error "Package name too long (max 500 characters)")) ∧
    (∀ (s tag : String) (r : Registry) (ω : NetOracle) (now v : String),
      parseRegistry tag = some r → validatePackageName s = .ok v →
      v = jsTrim s ∧
      getLatestVersion ω now s tag =
        handlerGetLatestVersion r ω now (jsTrim s) ∧
      getPackageInfo ω now s tag =
        handlerGetPackageInfo r ω now (jsTrim s)) ∧
    (∀ (s ver tag : String) (r : Registry) (ω : NetOracle)
      (now vn vv : String),
      parseRegistry tag = some r → validatePackageName s = .ok vn →
      validateVersion ver = .ok vv →
      checkVersionExists ω now s ver tag =
        handlerCheckVersionExists r ω now (jsTrim s) (jsTrim ver)) := by
  refine ⟨?_, ?_, ?_⟩
  · intro s h ω now registry version
    have h1 : 500 < s.length := lt_of_lt_of_le h (jsTrim_length_le s)
    have hne : s ≠ "" := by
      intro e
      subst e
      exact absurd h (by decide)
    have hval : validatePackageName s =
        .error (.error "Package name too long (max 500 characters)") := by
      unfold validatePackageName
      rw [if_neg hne, if_pos h1]
    unfold getLatestVersion checkVersionExists getPackageInfo
    rw [hval]
    exact ⟨rfl, rfl, rfl⟩
  · intro s tag r ω now v htag hval
    have hv := validatePackageName_ok hval
    subst hv
    refine ⟨rfl, getLatestVersion_validated s tag r ω now _ htag hval, ?_⟩
    · unfold getPackageInfo
      rw [hval]
      show (match lookupHandler tag with
        | HandlerLookup.undefined => Except.error (JsThrown.error
            ("Unsupported registry: " ++ tag))
        | HandlerLookup.inherited =>
            Except.error (typeErrorNotAFunction "handler.getPackageInfo")
        | HandlerLookup.handler r =>
            handlerGetPackageInfo r ω now (jsTrim s)) = _
      rw [lookupHandler_of_parse htag]
  · intro s ver tag r ω now vn vv htag hvaln hvalv
    have h1 := validatePackageName_ok hvaln
    have h2 := validateVersion_ok hvalv
    subst h1
    subst h2
    unfold checkVersionExists
    rw [hvaln]
    show (validateVersion ver >>= fun vv =>
      match lookupHandler tag with
      | HandlerLookup.undefined => Except.error (JsThrown.error
          ("Unsupported registry: " ++ tag))
      | HandlerLookup.inherited =>
          Except.error (typeErrorNotAFunction "handler.checkVersionExists")
      | HandlerLookup.handler r =>
          handlerCheckVersionExists r ω now (jsTrim s) vv) = _
    rw [hvalv]
    show (match lookupHandler tag with
      | HandlerLookup.undefined => Except.error (JsThrown.error
          ("Unsupported registry: " ++ tag))
      | HandlerLookup.inherited =>
          Except.error (typeErrorNotAFunction "handler.checkVersionExists")
      | HandlerLookup.handler r =>
          handlerCheckVersionExists r ω now (jsTrim s) (jsTrim ver)) = _
    rw [lookupHandler_of_parse htag]

/-- Witness for C8: a 501-character name is rejected; an untrimmed valid
name reaches the npm adapter trimmed. -/
theorem long_name_rejected_witness :
    getLatestVersion oracle404 "2024-01-01T00:00:00.000Z"
      (String.mk (List.replicate 501 'a')) "npm" =
      .error (.error "Package name too long (max 500 characters)") ∧
    getLatestVersion oracle404 "2024-01-01T00:00:00.000Z" " express " "npm" =
      handlerGetLatestVersion .npm oracle404 "2024-01-01T00:00:00.000Z"
        (jsTrim " express ") := by
  constructor
  · have hws : ∀ c ∈ (String.mk (List.replicate 501 'a')).data,
        jsWhitespaceChar c = false := by
      intro c hc
      rw [List.eq_of_mem_replicate hc]
      rfl
    have hlen : 500 < (jsTrim (String.mk (List.replicate 501 'a'))).length := by
      rw [jsTrim_no_whitespace _ hws]
      show 500 < (List.replicate 501 'a').length
      rw [List.length_replicate]
      omega
    exact (long_name_rejected.1 _ hlen oracle404 "2024-01-01T00:00:00.000Z"
      "npm" "1.0.0").1
  · exact ((long_name_rejected.2.1 " express " "npm" .npm oracle404
      "2024-01-01T00:00:00.000Z" (jsTrim " express ") rfl rfl).2).1

lemma retryGo_all_err {T : Type} (att : Nat → Except JsThrown (Option T)) :
    ∀ (rem attempt : Nat) (last e : JsThrown), 1 ≤ rem →
      (∀ i, attempt ≤ i → i < attempt + rem → ∃ q, att i = .error q) →
      att (attempt + rem - 1) = .error e →
      retryGo att attempt last rem = .error (toError e) := by
  intro rem
  induction rem with
  | zero => omega
  | succ rem ih =>
      intro attempt last e _ hall hlast
      obtain ⟨q, hq⟩ := hall attempt (le_refl _) (by omega)
      show (match att attempt with
        | Except.ok v => Except.ok v
        | Except.error q => retryGo att (attempt + 1) (toError q) rem) =
        Except.error (toError e)
      rw [hq]
      cases rem with
      | zero =>
          have : attempt + 1 - 1 = attempt := by omega
          rw [this] at hlast
          rw [hq] at hlast
          injection hlast with h'
          rw [h']
          rfl
      | succ rem' =>
          exact ih (attempt + 1) (toError q) e (by omega)
            (fun i h1 h2 => hall i (by omega) (by omega))
            (by
              have : attempt + 1 + (rem' + 1) - 1 =
                attempt + (rem' + 1 + 1) - 1 := by omega
              rw [this]
              exact hlast)

lemma retryGo_congr {T : Type} (att att' : Nat → Except JsThrown (Option T)) :
    ∀ (rem attempt : Nat) (last : JsThrown),
      (∀ i, attempt ≤ i → i < attempt + rem → att i = att' i) →
      retryGo att attempt last rem = retryGo att' attempt last rem := by
  intro rem
  induction rem with
  | zero => intro attempt last _; rfl
  | succ rem ih =>
      intro attempt last hagree
      show (match att attempt with
        | Except.ok v => Except.ok v
        | Except.error q => retryGo att (attempt + 1) (toError q) rem) =
        (match att' attempt with
        | Except.ok v => Except.ok v
        | Except.error q => retryGo att' (attempt + 1) (toError q) rem)
      rw [hagree attempt (le_refl _) (by omega)]
      cases att' attempt with
      | ok v => rfl
      | error q =>
          exact ih (attempt + 1) (toError q)
            (fun i h1 h2 => hagree i (by omega) (by omega))

/-- C6 counterexample: three attempts all throwing a non-`Error` value
make `makeRequestWithRetry` raise `Error('Unknown error')` — a different
value from the last observed thrown value, so "re-raises the last observed
error unchanged (the same error value, not wrapped)" fails for non-`Error`
throwables. -/
theorem maven_retry_cex :
    @makeRequestWithRetry Unit 3 (fun _ => .error .nonError) =
      .error (.error "Unknown error") ∧
    JsThrown.error "Unknown error" ≠ JsThrown.nonError :=
  ⟨rfl, by decide⟩

/-- C6 amended: the retry wrapper consults at most `maxRetries` (3 for
Maven) attempts; if every attempt throws, it re-raises the last observed
error after the `instanceof Error` normalization — unchanged whenever that
value is an `Error` instance, and `Error('Unknown error')` otherwise; a
`null` (`none`) result from an attempt is returned at once without any
further attempt. -/
theorem maven_retry_amended :
    (∀ (T : Type) (m : Nat) (att : Nat → Except JsThrown (Option T))
      (e : JsThrown), 1 ≤ m →
      (∀ i, 1 ≤ i → i < m → ∃ q, att i = .error q) →
      att m = .error e →
      makeRequestWithRetry m att = .error (toError e)) ∧
    (∀ msg, toError (.error msg) = .error msg) ∧
    (∀ (T : Type) (m : Nat) (att att' : Nat → Except JsThrown (Option T)),
      (∀ i, 1 ≤ i → i ≤ m → att i = att' i) →
      makeRequestWithRetry m att = makeRequestWithRetry m att') ∧
    (∀ (T : Type) (m : Nat) (att : Nat → Except JsThrown (Option T))
      (v : Option T), 1 ≤ m → att 1 = .ok v →
      makeRequestWithRetry m att = .ok v) ∧
    mavenMaxRetries = 3 := by
  refine ⟨?_, fun _ => rfl, ?_, ?_, rfl⟩
  · intro T m att e hm hall hlast
    unfold makeRequestWithRetry
    exact retryGo_all_err att m 1 .nonError e hm
      (fun i h1 h2 => by
        rcases Nat.lt_or_ge i m with hlt | hge
        · exact hall i h1 hlt
        · have hi : i = m := by omega
          rw [hi]
          exact ⟨e, hlast⟩)
      (by
        have : 1 + m - 1 = m := by omega
        rw [this]
        exact hlast)
  · intro T m att att' hagree
    unfold makeRequestWithRetry
    exact retryGo_congr att att' m 1 .nonError
      (fun i h1 h2 => hagree i h1 (by omega))
  · intro T m att v hm h1
    unfold makeRequestWithRetry
    cases m with
    | zero => omega
    | succ m' =>
        show (match att 1 with
          | Except.ok v => Except.ok v
          | Except.error q => retryGo att 2 (toError q) m') = Except.ok v
        rw [h1]

/-- Witness for the amended C6: three failing attempts with `Error`
values re-raise the last one unchanged. -/
theorem maven_retry_amended_witness :
    @makeRequestWithRetry Unit 3
      (fun i => .error (.error ("boom " ++ toString i))) =
      .error (.error "boom 3") := by
  have h := maven_retry_amended.1 Unit 3
    (fun i => .error (.error ("boom " ++ toString i))) (.error "boom 3")
    (by omega) (fun i h1 h2 => ⟨.error ("boom " ++ toString i), rfl⟩) rfl
  exact h

/-- C2: `_processBatch` throws for an empty input and for more than 100
items; for 1 to 100 items it returns one result per input, the result at
each index being the catch-wrapped per-item operation applied to the input
item at the same index (`Promise.all` over `map` keeps input order). -/
theorem processBatch_shape :
    (∀ (T : Type) (typeofName : T → String) (packages : List T)
      (reg now : String) (proc : T → Except JsThrown PackageResult),
      packages.length = 0 →
      processBatch typeofName packages reg now proc =
        .error (.error "Packages must be a non-empty array")) ∧
    (∀ (T : Type) (typeofName : T → String) (packages : List T)
      (reg now : String) (proc : T → Except JsThrown PackageResult),
      100 < packages.length →
      processBatch typeofName packages reg now proc =
        .error (.error "Maximum 100 packages allowed per request")) ∧
    (∀ (T : Type) (typeofName : T → String) (packages : List T)
      (reg now : String) (proc : T → Except JsThrown PackageResult),
      1 ≤ packages.length → packages.length ≤ 100 →
      processBatch typeofName packages reg now proc =
        .ok (packages.map (batchSlot typeofName reg now proc)) ∧
      (packages.map (batchSlot typeofName reg now proc)).length =
        packages.length ∧
      ∀ i : Nat, (packages.map (batchSlot typeofName reg now proc))[i]? =
        (packages[i]?).map (batchSlot typeofName reg now proc)) := by
  refine ⟨?_, ?_, ?_⟩
  · intro T typeofName packages reg now proc h
    unfold processBatch
    rw [if_pos h]
  · intro T typeofName packages reg now proc h
    unfold processBatch
    rw [if_neg (by omega), if_pos h]
  · intro T typeofName packages reg now proc h1 h100
    refine ⟨?_, ?_, ?_⟩
    · unfold processBatch
      rw [if_neg (by omega), if_neg (by omega)]
    · exact List.length_map _ _
    · intro i
      exact List.getElem?_map _ _ _

/-- Witness for C2 on a concrete two-element batch. -/
theorem processBatch_shape_witness :
    processBatch id ["a", "b"] "npm" "2024-01-01T00:00:00.000Z"
      (fun s => .error (.error s)) =
      .ok (["a", "b"].map (batchSlot id "npm" "2024-01-01T00:00:00.000Z"
        (fun s => .error (.error s)))) :=
  (processBatch_shape.2.2 String id ["a", "b"] "npm"
    "2024-01-01T00:00:00.000Z" (fun s => .error (.error s))
    (by decide) (by decide)).1

/-- C1: if the per-item operation of a batch of 1 to 100 items throws at
some index, the output at that index is the synthesized record
`{package, registry, found: false, error, timestamp}` whose `package` is
the item itself for a string batch and the item's `package_name` field for
an object batch, whose `error` is the thrown value's message under the
`instanceof Error` normalization of line 103, and whose timestamp is the
generation time; and a batch of 1 to 100 items never makes `_processBatch`
itself throw, whatever the per-item operation does. -/
theorem batch_error_isolation :
    (∀ (reg now : String) (packages : List String)
      (proc : String → Except JsThrown PackageResult)
      (i : Nat) (item : String) (e : JsThrown),
      packages.length ≤ 100 → packages[i]? = some item →
      proc item = .error e →
      processBatch id packages reg now proc =
        .ok (packages.map (batchSlot id reg now proc)) ∧
      (packages.map (batchSlot id reg now proc))[i]? = some
        { package := item, registry := reg, found := false,
          error := some (errMessage e), timestamp := now }) ∧
    (∀ (reg now : String) (packages : List PackageVersionRequest)
      (proc : PackageVersionRequest → Except JsThrown PackageResult)
      (i : Nat) (item : PackageVersionRequest) (e : JsThrown),
      packages.length ≤ 100 → packages[i]? = some item →
      proc item = .error e →
      processBatch PackageVersionRequest.package_name packages reg now
        proc = .ok (packages.map
          (batchSlot PackageVersionRequest.package_name reg now proc)) ∧
      (packages.map
        (batchSlot PackageVersionRequest.package_name reg now proc))[i]? =
        some
        { package := item.package_name, registry := reg, found := false,
          error := some (errMessage e), timestamp := now }) ∧
    (∀ (T : Type) (typeofName : T → String) (packages : List T)
      (reg now : String) (proc : T → Except JsThrown PackageResult),
      1 ≤ packages.length → packages.length ≤ 100 →
      (processBatch typeofName packages reg now proc).isOk = true) := by
  refine ⟨?_, ?_, ?_⟩
  · intro reg now packages proc i item e h100 hitem herr
    have hi : i < packages.length := by
      by_contra hge
      rw [List.getElem?_eq_none (by omega)] at hitem
      exact Option.noConfusion hitem
    refine ⟨?_, ?_⟩
    · unfold processBatch
      rw [if_neg (by omega), if_neg (by omega)]
    · rw [List.getElem?_map, hitem]
      show some (batchSlot id reg now proc item) = _
      unfold batchSlot
      rw [herr]
      rfl
  · intro reg now packages proc i item e h100 hitem herr
    have hi : i < packages.length := by
      by_contra hge
      rw [List.getElem?_eq_none (by omega)] at hitem
      exact Option.noConfusion hitem
    refine ⟨?_, ?_⟩
    · unfold processBatch
      rw [if_neg (by omega), if_neg (by omega)]
    · rw [List.getElem?_map, hitem]
      show some (batchSlot PackageVersionRequest.package_name reg now proc
        item) = _
      unfold batchSlot
      rw [herr]
      rfl
  · intro T typeofName packages reg now proc h1 h100
    unfold processBatch
    rw [if_neg (by omega), if_neg (by omega)]
    rfl

/-- Witness for C1: a one-element batch whose operation throws yields the
synthesized error record and no thrown batch error. -/
theorem batch_error_isolation_witness :
    (["left-pad"].map (batchSlot id "npm" "2024-01-01T00:00:00.000Z"
      (fun _ =>
        .error (.error "Network error: Unable to reach registry"))))[0]? =
      some
      { package := "left-pad", registry := "npm", found := false,
        error := some "Network error: Unable to reach registry",
        timestamp := "2024-01-01T00:00:00.000Z" } :=
  (batch_error_isolation.1 "npm" "2024-01-01T00:00:00.000Z" ["left-pad"]
    (fun _ => .error (.error "Network error: Unable to reach registry"))
    0 "left-pad" (.error "Network error: Unable to reach registry")
    (by decide) rfl rfl).2

/-- C4 counterexample: with an empty package name and the unknown tag
"invalid-registry", `getLatestVersion` throws the name-validation error —
whose message does not mention the registry — because validation precedes
the registry lookup in the single-item operations, so "every one of the
six entry-point operations throws an error whose message names the
unsupported registry" fails as stated. -/
theorem unsupported_registry_cex :
    getLatestVersion oracle404 "2024-01-01T00:00:00.000Z" ""
      "invalid-registry" =
      .error (.error "Package name must be a non-empty string") ∧
    listIsInfixOf "invalid-registry".data
      "Package name must be a non-empty string".data = false :=
  ⟨rfl, by decide⟩

/-- C4 amended: for every tag outside the seven supported registries that
is not a property name inherited from `Object.prototype`, the three batch
entry points throw `Unsupported registry: <tag>` unconditionally (the
lookup is their first step), and the three single-item entry points throw
it whenever their arguments pass input validation — an invalid package
name or version throws the corresponding validation error instead.  For a
tag naming an inherited `Object.prototype` member the lookup is truthy and
no `Unsupported registry` error is ever thrown: the single-item entry
points throw the `TypeError` of the failed method call, and the batch
entry points of 1 to 100 items resolve, each slot a synthesized record
catching that `TypeError`.  In all cases the outcome is the same for every
network oracle, i.e. decided before any request is issued. -/
theorem unsupported_registry_amended (tag : String)
    (htag : parseRegistry tag = none) :
    (tag ∉ objectPrototypeProps →
      (∀ (ω : NetOracle) (now s v : String),
        validatePackageName s = .ok v →
        getLatestVersion ω now s tag =
          .error (.error ("Unsupported registry: " ++ tag)) ∧
        getPackageInfo ω now s tag =
          .error (.error ("Unsupported registry: " ++ tag))) ∧
      (∀ (ω : NetOracle) (now s ver vs vv : String),
        validatePackageName s = .ok vs → validateVersion ver = .ok vv →
        checkVersionExists ω now s ver tag =
          .error (.error ("Unsupported registry: " ++ tag))) ∧
      (∀ (ω : NetOracle) (now : String) (packages : List String),
        getLatestVersions ω now packages tag =
          .error (.error ("Unsupported registry: " ++ tag))) ∧
      (∀ (ω : NetOracle) (now : String)
        (packages : List PackageVersionRequest),
        checkVersionsExist ω now packages tag =
          .error (.error ("Unsupported registry: " ++ tag))) ∧
      (∀ (ω : NetOracle) (now : String) (packages : List String),
        getPackagesInfo ω now packages tag =
          .error (.error ("Unsupported registry: " ++ tag)))) ∧
    (tag ∈ objectPrototypeProps →
      (∀ (ω : NetOracle) (now s v : String),
        validatePackageName s = .ok v →
        getLatestVersion ω now s tag =
          .error (typeErrorNotAFunction "handler.getLatestVersion") ∧
        getPackageInfo ω now s tag =
          .error (typeErrorNotAFunction "handler.getPackageInfo")) ∧
      (∀ (ω : NetOracle) (now s ver vs vv : String),
        validatePackageName s = .ok vs → validateVersion ver = .ok vv →
        checkVersionExists ω now s ver tag =
          .error (typeErrorNotAFunction "handler.checkVersionExists")) ∧
      (∀ (ω : NetOracle) (now : String) (packages : List String),
        1 ≤ packages.length → packages.length ≤ 100 →
        getLatestVersions ω now packages tag =
          .ok (packages.map (fun p => synthResult p tag now
            (typeErrorNotAFunction "handler.getLatestVersion")))) ∧
      (∀ (ω : NetOracle) (now : String)
        (packages : List PackageVersionRequest),
        1 ≤ packages.length → packages.length ≤ 100 →
        checkVersionsExist ω now packages tag =
          .ok (packages.map (fun q => synthResult q.package_name tag now
            (typeErrorNotAFunction "handler.checkVersionExists")))) ∧
      (∀ (ω : NetOracle) (now : String) (packages : List String),
        1 ≤ packages.length → packages.length ≤ 100 →
        getPackagesInfo ω now packages tag =
          .ok (packages.map (fun p => synthResult p tag now
            (typeErrorNotAFunction "handler.getPackageInfo"))))) := by
  constructor
  · intro hnot
    have hlook : lookupHandler tag = .undefined := by
      unfold lookupHandler
      rw [htag, if_neg hnot]
    refine ⟨?_, ?_, ?_, ?_, ?_⟩
    · intro ω now s v hval
      constructor
      · unfold getLatestVersion
        rw [hval]
        show (match lookupHandler tag with
          | HandlerLookup.undefined => Except.error (JsThrown.error
              ("Unsupported registry: " ++ tag))
          | HandlerLookup.inherited =>
              Except.error (typeErrorNotAFunction "handler.getLatestVersion")
          | HandlerLookup.handler r =>
              handlerGetLatestVersion r ω now v) = _
        rw [hlook]
      · unfold getPackageInfo
        rw [hval]
        show (match lookupHandler tag with
          | HandlerLookup.undefined => Except.error (JsThrown.error
              ("Unsupported registry: " ++ tag))
          | HandlerLookup.inherited =>
              Except.error (typeErrorNotAFunction "handler.getPackageInfo")
          | HandlerLookup.handler r =>
              handlerGetPackageInfo r ω now v) = _
        rw [hlook]
    · intro ω now s ver vs vv hvs hvv
      unfold checkVersionExists
      rw [hvs]
      show (validateVersion ver >>= fun vv =>
        match lookupHandler tag with
        | HandlerLookup.undefined => Except.error (JsThrown.error
            ("Unsupported registry: " ++ tag))
        | HandlerLookup.inherited =>
            Except.error (typeErrorNotAFunction "handler.checkVersionExists")
        | HandlerLookup.handler r =>
            handlerCheckVersionExists r ω now vs vv) = _
      rw [hvv]
      show (match lookupHandler tag with
        | HandlerLookup.undefined => Except.error (JsThrown.error
            ("Unsupported registry: " ++ tag))
        | HandlerLookup.inherited =>
            Except.error (typeErrorNotAFunction "handler.checkVersionExists")
        | HandlerLookup.handler r =>
            handlerCheckVersionExists r ω now vs vv) = _
      rw [hlook]
    · intro ω now packages
      unfold getLatestVersions
      rw [hlook]
    · intro ω now packages
      unfold checkVersionsExist
      rw [hlook]
    · intro ω now packages
      unfold getPackagesInfo
      rw [hlook]
  · intro hmem
    have hlook : lookupHandler tag = .inherited := by
      unfold lookupHandler
      rw [htag, if_pos hmem]
    refine ⟨?_, ?_, ?_, ?_, ?_⟩
    · intro ω now s v hval
      constructor
      · unfold getLatestVersion
        rw [hval]
        show (match lookupHandler tag with
          | HandlerLookup.undefined => Except.error (JsThrown.error
              ("Unsupported registry: " ++ tag))
          | HandlerLookup.inherited =>
              Except.error (typeErrorNotAFunction "handler.getLatestVersion")
          | HandlerLookup.handler r =>
              handlerGetLatestVersion r ω now v) = _
        rw [hlook]
      · unfold getPackageInfo
        rw [hval]
        show (match lookupHandler tag with
          | HandlerLookup.undefined => Except.error (JsThrown.error
              ("Unsupported registry: " ++ tag))
          | HandlerLookup.inherited =>
              Except.error (typeErrorNotAFunction "handler.getPackageInfo")
          | HandlerLookup.handler r =>
              handlerGetPackageInfo r ω now v) = _
        rw [hlook]
    · intro ω now s ver vs vv hvs hvv
      unfold checkVersionExists
      rw [hvs]
      show (validateVersion ver >>= fun vv =>
        match lookupHandler tag with
        | HandlerLookup.undefined => Except.error (JsThrown.error
            ("Unsupported registry: " ++ tag))
        | HandlerLookup.inherited =>
            Except.error (typeErrorNotAFunction "handler.checkVersionExists")
        | HandlerLookup.handler r =>
            handlerCheckVersionExists r ω now vs vv) = _
      rw [hvv]
      show (match lookupHandler tag with
        | HandlerLookup.undefined => Except.error (JsThrown.error
            ("Unsupported registry: " ++ tag))
        | HandlerLookup.inherited =>
            Except.error (typeErrorNotAFunction "handler.checkVersionExists")
        | HandlerLookup.handler r =>
            handlerCheckVersionExists r ω now vs vv) = _
      rw [hlook]
    · intro ω now packages h1 h100
      unfold getLatestVersions
      rw [hlook]
      show processBatch id packages tag now
        (fun _ => .error (typeErrorNotAFunction
          "handler.getLatestVersion")) = _
      unfold processBatch
      rw [if_neg (by omega), if_neg (by omega)]
      rfl
    · intro ω now packages h1 h100
      unfold checkVersionsExist
      rw [hlook]
      show processBatch PackageVersionRequest.package_name packages tag now
        (fun _ => .error (typeErrorNotAFunction
          "handler.checkVersionExists")) = _
      unfold processBatch
      rw [if_neg (by omega), if_neg (by omega)]
      rfl
    · intro ω now packages h1 h100
      unfold getPackagesInfo
      rw [hlook]
      show processBatch id packages tag now
        (fun _ => .error (typeErrorNotAFunction
          "handler.getPackageInfo")) = _
      unfold processBatch
      rw [if_neg (by omega), if_neg (by omega)]
      rfl

/-- Witness for the amended C4: a genuinely absent tag throws the
`Unsupported registry` error (batch even on an empty array, single op on
a valid name), while the inherited tag "toString" makes the single op
throw the `TypeError` and a one-item batch resolve with the synthesized
catch record — all on the 404 network. -/
theorem unsupported_registry_amended_witness :
    getLatestVersions oracle404 "2024-01-01T00:00:00.000Z" []
      "invalid-registry" =
      .error (.error "Unsupported registry: invalid-registry") ∧
    getLatestVersion oracle404 "2024-01-01T00:00:00.000Z" "express"
      "invalid-registry" =
      .error (.error "Unsupported registry: invalid-registry") ∧
    getLatestVersion oracle404 "2024-01-01T00:00:00.000Z" "express"
      "toString" =
      .error (typeErrorNotAFunction "handler.getLatestVersion") ∧
    getLatestVersions oracle404 "2024-01-01T00:00:00.000Z" ["express"]
      "toString" =
      .ok (["express"].map (fun p => synthResult p "toString"
        "2024-01-01T00:00:00.000Z"
        (typeErrorNotAFunction "handler.getLatestVersion"))) := by
  have h := unsupported_registry_amended "invalid-registry" rfl
  have h2 := unsupported_registry_amended "toString" rfl
  have hnot : "invalid-registry" ∉ objectPrototypeProps := by decide
  have hmem : "toString" ∈ objectPrototypeProps := by decide
  exact ⟨(h.1 hnot).2.2.1 oracle404 "2024-01-01T00:00:00.000Z" [],
    ((h.1 hnot).1 oracle404 "2024-01-01T00:00:00.000Z" "express" "express"
      rfl).1,
    ((h2.2 hmem).1 oracle404 "2024-01-01T00:00:00.000Z" "express" "express"
      rfl).1,
    (h2.2 hmem).2.2.1 oracle404 "2024-01-01T00:00:00.000Z" ["express"]
      (by decide) (by decide)⟩

/-- C9: the batch entry points perform no per-item validation: for every
supported registry tag and EVERY item — including an empty, untrimmed or
over-long package name, or a version over 100 characters — the item is
handed to the adapter exactly as given (the per-item slot is the
catch-wrapped adapter call on the raw strings); by contrast the same
single-item operation rejects an empty name outright and passes a
validated name to the adapter only in trimmed form. -/
theorem batch_no_validation :
    (∀ (tag : String) (r : Registry) (ω : NetOracle) (now s : String),
      parseRegistry tag = some r →
      getLatestVersions ω now [s] tag = .ok [batchSlot id tag now
        (fun packageName => handlerGetLatestVersion r ω now packageName) s]) ∧
    (∀ (tag : String) (r : Registry) (ω : NetOracle) (now : String)
      (q : PackageVersionRequest), parseRegistry tag = some r →
      checkVersionsExist ω now [q] tag =
        .ok [batchSlot PackageVersionRequest.package_name tag now
          (fun q' => handlerCheckVersionExists r ω now q'.package_name
            q'.version) q]) ∧
    (∀ (tag : String) (r : Registry) (ω : NetOracle) (now s : String),
      parseRegistry tag = some r →
      getPackagesInfo ω now [s] tag = .ok [batchSlot id tag now
        (fun packageName => handlerGetPackageInfo r ω now packageName) s]) ∧
    (∀ (ω : NetOracle) (now tag : String),
      getLatestVersion ω now "" tag =
        .error (.error "Package name must be a non-empty string")) ∧
    (∀ (s tag : String) (r : Registry) (ω : NetOracle) (now v : String),
      parseRegistry tag = some r → validatePackageName s = .ok v →
      getLatestVersion ω now s tag =
        handlerGetLatestVersion r ω now (jsTrim s)) := by
  refine ⟨?_, ?_, ?_, ?_, ?_⟩
  · intro tag r ω now s htag
    unfold getLatestVersions
    rw [lookupHandler_of_parse htag]
    rfl
  · intro tag r ω now q htag
    unfold checkVersionsExist
    rw [lookupHandler_of_parse htag]
    rfl
  · intro tag r ω now s htag
    unfold getPackagesInfo
    rw [lookupHandler_of_parse htag]
    rfl
  · intro ω now tag
    rfl
  · intro s tag r ω now v htag hval
    exact getLatestVersion_validated s tag r ω now v htag hval

/-- Witness for C9: the empty name goes through the npm batch untouched
(and, on the 404 network, yields a not-found result for package `""`),
while the single-item operation rejects it. -/
theorem batch_no_validation_witness :
    getLatestVersions oracle404 "2024-01-01T00:00:00.000Z" [""] "npm" =
      .ok [batchSlot id "npm" "2024-01-01T00:00:00.000Z"
        (fun packageName => handlerGetLatestVersion .npm oracle404
          "2024-01-01T00:00:00.000Z" packageName) ""] ∧
    getLatestVersion oracle404 "2024-01-01T00:00:00.000Z" "" "npm" =
      .error (.error "Package name must be a non-empty string") :=
  ⟨batch_no_validation.1 "npm" .npm oracle404 "2024-01-01T00:00:00.000Z"
    "" rfl,
   batch_no_validation.2.2.2.1 oracle404 "2024-01-01T00:00:00.000Z" "npm"⟩

/-- C3 counterexample: on a network answering 404 everywhere, the Go
version-check returns a success-shaped result — `found = true`, no error
message, `exists = false` — and the Maven version-check (with a valid
coordinate) returns `found = true` with no `exists` boolean at all, so
"every operation returns found=false carrying the message Package not
found" fails for `checkVersionExists`. -/
theorem notfound404_cex :
    goCheckVersionExists oracle404 "2024-01-01T00:00:00.000Z"
      "github.com/gorilla/mux" "v1.8.0" =
      .ok { package := "github.com/gorilla/mux", registry := "go",
            found := true, timestamp := "2024-01-01T00:00:00.000Z",
            version := some "v1.8.0", «exists» := some false } ∧
    mavenCheckVersionExists oracle404 "2024-01-01T00:00:00.000Z"
      "org.springframework:spring-core" "5.0.0" =
      .ok { package := "org.springframework:spring-core",
            registry := "maven", found := true,
            timestamp := "2024-01-01T00:00:00.000Z",
            version := some "5.0.0", «exists» := none } :=
  ⟨rfl, rfl⟩

/-- C3 amended: a remote 404 never surfaces as an exception; for
`getLatestVersion` and `getPackageInfo` every adapter (Maven given a valid
coordinate) returns `found = false` with message "Package not found"; for
`checkVersionExists`, the npm, PyPI, NuGet, RubyGems and crates adapters
return `found = false` with message "Package not found" (echoing the
version, with no `exists` field), while the Maven and Go adapters return a
success-shaped `found = true` result with no boolean-true `exists` (Go:
`exists = false`; Maven: no `exists` value, JS `null`). -/
theorem notfound404_amended :
    (∀ (r : Registry) (now packageName : String), r ≠ Registry.maven →
      handlerGetLatestVersion r oracle404 now packageName =
        .ok (createErrorResponse packageName r.tag now
          "Package not found" {}) ∧
      handlerGetPackageInfo r oracle404 now packageName =
        .ok (createErrorResponse packageName r.tag now
          "Package not found" {})) ∧
    (∀ (now packageName g a : String),
      mavenCoord packageName = some (g, a) →
      mavenGetLatestVersion oracle404 now packageName =
        .ok (createErrorResponse packageName "maven" now
          "Package not found" {}) ∧
      mavenGetPackageInfo oracle404 now packageName =
        .ok (createErrorResponse packageName "maven" now
          "Package not found" {})) ∧
    (∀ (now packageName version : String),
      npmCheckVersionExists oracle404 now packageName version =
        .ok (createErrorResponse packageName "npm" now "Package not found"
          { version := some version }) ∧
      pypiCheckVersionExists oracle404 now packageName version =
        .ok (createErrorResponse packageName "pypi" now "Package not found"
          { version := some version }) ∧
      nugetCheckVersionExists oracle404 now packageName version =
        .ok (createErrorResponse packageName "nuget" now "Package not found"
          { version := some version }) ∧
      rubygemsCheckVersionExists oracle404 now packageName version =
        .ok (createErrorResponse packageName "rubygems" now
          "Package not found" { version := some version }) ∧
      cratesCheckVersionExists oracle404 now packageName version =
        .ok (createErrorResponse packageName "crates" now
          "Package not found" { version := some version })) ∧
    (∀ (now packageName version g a : String),
      mavenCoord packageName = some (g, a) →
      mavenCheckVersionExists oracle404 now packageName version =
        .ok (createSuccessResponse packageName "maven" now
          { version := some version, «exists» := none } {})) ∧
    (∀ (now packageName version : String),
      goCheckVersionExists oracle404 now packageName version =
        .ok (createSuccessResponse packageName "go" now
          { version := some version, «exists» := some false } {})) := by
  refine ⟨?_, ?_, ?_, ?_, ?_⟩
  · intro r now packageName hr
    cases r with
    | maven => exact absurd rfl hr
    | npm => exact ⟨rfl, rfl⟩
    | pypi => exact ⟨rfl, rfl⟩
    | nuget => exact ⟨rfl, rfl⟩
    | rubygems => exact ⟨rfl, rfl⟩
    | crates => exact ⟨rfl, rfl⟩
    | go => exact ⟨rfl, rfl⟩
  · intro now packageName g a h
    constructor
    · unfold mavenGetLatestVersion
      rw [h]
      rfl
    · unfold mavenGetPackageInfo
      rw [h]
      rfl
  · intro now packageName version
    exact ⟨rfl, rfl, rfl, rfl, rfl⟩
  · intro now packageName version g a h
    unfold mavenCheckVersionExists
    rw [h]
    rfl
  · intro now packageName version
    rfl

/-- Witness for the amended C3 at concrete inputs. -/
theorem notfound404_amended_witness :
    handlerGetLatestVersion .npm oracle404 "2024-01-01T00:00:00.000Z"
      "left-pad" =
      .ok (createErrorResponse "left-pad" "npm" "2024-01-01T00:00:00.000Z"
        "Package not found" {}) ∧
    mavenGetLatestVersion oracle404 "2024-01-01T00:00:00.000Z"
      "org.springframework:spring-core" =
      .ok (createErrorResponse "org.springframework:spring-core" "maven"
        "2024-01-01T00:00:00.000Z" "Package not found" {}) :=
  ⟨(notfound404_amended.1 .npm "2024-01-01T00:00:00.000Z" "left-pad"
      (by decide)).1,
   (notfound404_amended.2.1 "2024-01-01T00:00:00.000Z"
      "org.springframework:spring-core" "org.springframework" "spring-core"
      rfl).1⟩

lemma except_bind_err {α β : Type} (e : JsThrown)
    (k : α → Except JsThrown β) :
    ((Except.error e : Except JsThrown α) >>= k) = Except.error e := rfl

lemma except_bind_ok {α β : Type} (a : α) (k : α → Except JsThrown β) :
    ((Except.ok a : Except JsThrown α) >>= k) = k a := rfl

lemma bind_eq_ok {α β : Type} {x : Except JsThrown α}
    {k : α → Except JsThrown β} {res : β}
    (h : (x >>= k) = .ok res) : ∃ a, x = .ok a ∧ k a = .ok res := by
  cases x with
  | error e => exact Except.noConfusion h
  | ok a => exact ⟨a, rfl, h⟩

lemma resultInv_err (packageName registry now msg : String)
    (addl : PartialResult) (h1 : addl.package = none)
    (h2 : addl.registry = none) (h3 : addl.timestamp = none)
    (h4 : addl.found = none) :
    ResultInv (createErrorResponse packageName registry now msg addl)
      packageName registry now := by
  unfold ResultInv createErrorResponse
  rw [h1, h2, h3, h4]
  exact ⟨rfl, rfl, rfl, fun _ => rfl⟩

lemma resultInv_succ (packageName registry now : String)
    (data addl : PartialResult)
    (hd : data.package = none ∧ data.registry = none ∧
      data.timestamp = none ∧ data.found = none ∧ data.error = none)
    (ha : addl.package = none ∧ addl.registry = none ∧
      addl.timestamp = none ∧ addl.found = none ∧ addl.error = none) :
    ResultInv (createSuccessResponse packageName registry now data addl)
      packageName registry now := by
  obtain ⟨d1, d2, d3, d4, d5⟩ := hd
  obtain ⟨a1, a2, a3, a4, a5⟩ := ha
  unfold ResultInv createSuccessResponse
  rw [d1, d2, d3, d4, d5, a1, a2, a3, a4, a5]
  refine ⟨rfl, rfl, rfl, fun h => absurd rfl h⟩

lemma npmGetLatestVersion_inv (ω : NetOracle) (now name : String)
    (res : PackageResult) (h : npmGetLatestVersion ω now name = .ok res) :
    ResultInv res name "npm" now := by
  unfold npmGetLatestVersion at h
  cases hm : makeRequest (ω.npmPkg name) with
  | error e =>
      rw [hm, except_bind_err] at h
      exact Except.noConfusion h
  | ok data =>
      rw [hm, except_bind_ok] at h
      cases data with
      | none =>
          rw [← Except.ok.inj h]
          exact resultInv_err _ _ _ _ _ rfl rfl rfl rfl
      | some d =>
          rw [← Except.ok.inj h]
          exact resultInv_succ _ _ _ _ _ ⟨rfl, rfl, rfl, rfl, rfl⟩
            ⟨rfl, rfl, rfl, rfl, rfl⟩

lemma npmCheckVersionExists_inv (ω : NetOracle) (now name version : String)
    (res : PackageResult)
    (h : npmCheckVersionExists ω now name version = .ok res) :
    ResultInv res name "npm" now := by
  unfold npmCheckVersionExists at h
  cases hm : makeRequest (ω.npmPkg name) with
  | error e =>
      rw [hm, except_bind_err] at h
      exact Except.noConfusion h
  | ok data =>
      rw [hm, except_bind_ok] at h
      cases data with
      | none =>
          rw [← Except.ok.inj h]
          exact resultInv_err _ _ _ _ _ rfl rfl rfl rfl
      | some d =>
          rw [← Except.ok.inj h]
          exact resultInv_succ _ _ _ _ _ ⟨rfl, rfl, rfl, rfl, rfl⟩
            ⟨rfl, rfl, rfl, rfl, rfl⟩

lemma npmGetPackageInfo_inv (ω : NetOracle) (now name : String)
    (res : PackageResult) (h : npmGetPackageInfo ω now name = .ok res) :
    ResultInv res name "npm" now := by
  unfold npmGetPackageInfo at h
  cases hm : makeRequest (ω.npmPkg name) with
  | error e =>
      rw [hm, except_bind_err] at h
      exact Except.noConfusion h
  | ok data =>
      rw [hm, except_bind_ok] at h
      cases data with
      | none =>
          rw [← Except.ok.inj h]
          exact resultInv_err _ _ _ _ _ rfl rfl rfl rfl
      | some d =>
          rw [← Except.ok.inj h]
          exact resultInv_succ _ _ _ _ _ ⟨rfl, rfl, rfl, rfl, rfl⟩
            ⟨rfl, rfl, rfl, rfl, rfl⟩

lemma pypiGetLatestVersion_inv (ω : NetOracle) (now name : String)
    (res : PackageResult) (h : pypiGetLatestVersion ω now name = .ok res) :
    ResultInv res name "pypi" now := by
  unfold pypiGetLatestVersion at h
  cases hm : makeRequest (ω.pypiPkg name) with
  | error e =>
      rw [hm, except_bind_err] at h
      exact Except.noConfusion h
  | ok data =>
      rw [hm, except_bind_ok] at h
      cases data with
      | none =>
          rw [← Except.ok.inj h]
          exact resultInv_err _ _ _ _ _ rfl rfl rfl rfl
      | some d =>
          rw [← Except.ok.inj h]
          exact resultInv_succ _ _ _ _ _ ⟨rfl, rfl, rfl, rfl, rfl⟩
            ⟨rfl, rfl, rfl, rfl, rfl⟩

lemma pypiCheckVersionExists_inv (ω : NetOracle) (now name version : String)
    (res : PackageResult)
    (h : pypiCheckVersionExists ω now name version = .ok res) :
    ResultInv res name "pypi" now := by
  unfold pypiCheckVersionExists at h
  cases hm : makeRequest (ω.pypiPkg name) with
  | error e =>
      rw [hm, except_bind_err] at h
      exact Except.noConfusion h
  | ok data =>
      rw [hm, except_bind_ok] at h
      cases data with
      | none =>
          rw [← Except.ok.inj h]
          exact resultInv_err _ _ _ _ _ rfl rfl rfl rfl
      | some d =>
          rw [← Except.ok.inj h]
          exact resultInv_succ _ _ _ _ _ ⟨rfl, rfl, rfl, rfl, rfl⟩
            ⟨rfl, rfl, rfl, rfl, rfl⟩

lemma pypiGetPackageInfo_inv (ω : NetOracle) (now name : String)
    (res : PackageResult) (h : pypiGetPackageInfo ω now name = .ok res) :
    ResultInv res name "pypi" now := by
  unfold pypiGetPackageInfo at h
  cases hm : makeRequest (ω.pypiPkg name) with
  | error e =>
      rw [hm, except_bind_err] at h
      exact Except.noConfusion h
  | ok data =>
      rw [hm, except_bind_ok] at h
      cases data with
      | none =>
          rw [← Except.ok.inj h]
          exact resultInv_err _ _ _ _ _ rfl rfl rfl rfl
      | some d =>
          rw [← Except.ok.inj h]
          exact resultInv_succ _ _ _ _ _ ⟨rfl, rfl, rfl, rfl, rfl⟩
            ⟨rfl, rfl, rfl, rfl, rfl⟩

lemma goGetLatestVersion_inv (ω : NetOracle) (now name : String)
    (res : PackageResult) (h : goGetLatestVersion ω now name = .ok res) :
    ResultInv res name "go" now := by
  unfold goGetLatestVersion at h
  cases hm : makeRequest (ω.goLatest name) with
  | error e =>
      rw [hm, except_bind_err] at h
      exact Except.noConfusion h
  | ok data =>
      rw [hm, except_bind_ok] at h
      cases data with
      | none =>
          rw [← Except.ok.inj h]
          exact resultInv_err _ _ _ _ _ rfl rfl rfl rfl
      | some d =>
          rw [← Except.ok.inj h]
          exact resultInv_succ _ _ _ _ _ ⟨rfl, rfl, rfl, rfl, rfl⟩
            ⟨rfl, rfl, rfl, rfl, rfl⟩

lemma goCheckVersionExists_inv (ω : NetOracle) (now name version : String)
    (res : PackageResult)
    (h : goCheckVersionExists ω now name version = .ok res) :
    ResultInv res name "go" now := by
  unfold goCheckVersionExists at h
  cases hm : makeRequest (ω.goInfo name version) with
  | error e =>
      rw [hm, except_bind_err] at h
      exact Except.noConfusion h
  | ok data =>
      rw [hm, except_bind_ok] at h
      rw [← Except.ok.inj h]
      exact resultInv_succ _ _ _ _ _ ⟨rfl, rfl, rfl, rfl, rfl⟩
        ⟨rfl, rfl, rfl, rfl, rfl⟩

lemma goGetPackageInfo_inv (ω : NetOracle) (now name : String)
    (res : PackageResult) (h : goGetPackageInfo ω now name = .ok res) :
    ResultInv res name "go" now := by
  unfold goGetPackageInfo at h
  cases hm : makeRequest (ω.goLatest name) with
  | error e =>
      rw [hm, except_bind_err] at h
      exact Except.noConfusion h
  | ok data =>
      rw [hm, except_bind_ok] at h
      cases data with
      | none =>
          rw [← Except.ok.inj h]
          exact resultInv_err _ _ _ _ _ rfl rfl rfl rfl
      | some d =>
          rw [← Except.ok.inj h]
          exact resultInv_succ _ _ _ _ _ ⟨rfl, rfl, rfl, rfl, rfl⟩
            ⟨rfl, rfl, rfl, rfl, rfl⟩

lemma rubygemsGetLatestVersion_inv (ω : NetOracle) (now name : String)
    (res : PackageResult)
    (h : rubygemsGetLatestVersion ω now name = .ok res) :
    ResultInv res name "rubygems" now := by
  unfold rubygemsGetLatestVersion at h
  cases hm : makeRequest (ω.gemsDoc name) with
  | error e =>
      rw [hm, except_bind_err] at h
      exact Except.noConfusion h
  | ok data =>
      rw [hm, except_bind_ok] at h
      cases data with
      | none =>
          rw [← Except.ok.inj h]
          exact resultInv_err _ _ _ _ _ rfl rfl rfl rfl
      | some d =>
          rw [← Except.ok.inj h]
          exact resultInv_succ _ _ _ _ _ ⟨rfl, rfl, rfl, rfl, rfl⟩
            ⟨rfl, rfl, rfl, rfl, rfl⟩

lemma rubygemsCheckVersionExists_inv (ω : NetOracle)
    (now name version : String) (res : PackageResult)
    (h : rubygemsCheckVersionExists ω now name version = .ok res) :
    ResultInv res name "rubygems" now := by
  unfold rubygemsCheckVersionExists at h
  cases hm : makeRequest (ω.gemsVersions name) with
  | error e =>
      rw [hm, except_bind_err] at h
      exact Except.noConfusion h
  | ok data =>
      rw [hm, except_bind_ok] at h
      cases data with
      | none =>
          rw [← Except.ok.inj h]
          exact resultInv_err _ _ _ _ _ rfl rfl rfl rfl
      | some l =>
          rw [← Except.ok.inj h]
          exact resultInv_succ _ _ _ _ _ ⟨rfl, rfl, rfl, rfl, rfl⟩
            ⟨rfl, rfl, rfl, rfl, rfl⟩

lemma rubygemsGetPackageInfo_inv (ω : NetOracle) (now name : String)
    (res : PackageResult)
    (h : rubygemsGetPackageInfo ω now name = .ok res) :
    ResultInv res name "rubygems" now := by
  unfold rubygemsGetPackageInfo at h
  obtain ⟨data, hm, h2⟩ := bind_eq_ok h
  cases data with
  | none =>
      rw [← Except.ok.inj h2]
      exact resultInv_err _ _ _ _ _ rfl rfl rfl rfl
  | some d =>
      obtain ⟨versionsData, hv, h3⟩ := bind_eq_ok h2
      rw [← Except.ok.inj h3]
      exact resultInv_succ _ _ _ _ _ ⟨rfl, rfl, rfl, rfl, rfl⟩
        ⟨rfl, rfl, rfl, rfl, rfl⟩

lemma nugetGetLatestVersion_inv (ω : NetOracle) (now name : String)
    (res : PackageResult)
    (h : nugetGetLatestVersion ω now name = .ok res) :
    ResultInv res name "nuget" now := by
  unfold nugetGetLatestVersion at h
  obtain ⟨data, hm, h2⟩ := bind_eq_ok h
  cases data with
  | none =>
      rw [← Except.ok.inj h2]
      exact resultInv_err _ _ _ _ _ rfl rfl rfl rfl
  | some d =>
      obtain ⟨dv⟩ := d
      cases dv with
      | none =>
          rw [← Except.ok.inj h2]
          exact resultInv_err _ _ _ _ _ rfl rfl rfl rfl
      | some l =>
          cases l with
          | nil =>
              rw [← Except.ok.inj h2]
              exact resultInv_err _ _ _ _ _ rfl rfl rfl rfl
          | cons v0 vs =>
              rw [← Except.ok.inj h2]
              exact resultInv_succ _ _ _ _ _ ⟨rfl, rfl, rfl, rfl, rfl⟩
                ⟨rfl, rfl, rfl, rfl, rfl⟩

lemma nugetCheckVersionExists_inv (ω : NetOracle)
    (now name version : String) (res : PackageResult)
    (h : nugetCheckVersionExists ω now name version = .ok res) :
    ResultInv res name "nuget" now := by
  unfold nugetCheckVersionExists at h
  obtain ⟨data, hm, h2⟩ := bind_eq_ok h
  cases data with
  | none =>
      rw [← Except.ok.inj h2]
      exact resultInv_err _ _ _ _ _ rfl rfl rfl rfl
  | some d =>
      rw [← Except.ok.inj h2]
      exact resultInv_succ _ _ _ _ _ ⟨rfl, rfl, rfl, rfl, rfl⟩
        ⟨rfl, rfl, rfl, rfl, rfl⟩

lemma nugetGetPackageInfo_inv (ω : NetOracle) (now name : String)
    (res : PackageResult)
    (h : nugetGetPackageInfo ω now name = .ok res) :
    ResultInv res name "nuget" now := by
  unfold nugetGetPackageInfo at h
  obtain ⟨data, hm, h2⟩ := bind_eq_ok h
  cases data with
  | none =>
      rw [← Except.ok.inj h2]
      exact resultInv_err _ _ _ _ _ rfl rfl rfl rfl
  | some d =>
      obtain ⟨dv⟩ := d
      cases dv with
      | none =>
          rw [← Except.ok.inj h2]
          exact resultInv_err _ _ _ _ _ rfl rfl rfl rfl
      | some l =>
          cases l with
          | nil =>
              rw [← Except.ok.inj h2]
              exact resultInv_err _ _ _ _ _ rfl rfl rfl rfl
          | cons v0 vs =>
              rw [← Except.ok.inj h2]
              exact resultInv_succ _ _ _ _ _ ⟨rfl, rfl, rfl, rfl, rfl⟩
                ⟨rfl, rfl, rfl, rfl, rfl⟩

lemma cratesGetLatestVersion_inv (ω : NetOracle) (now name : String)
    (res : PackageResult)
    (h : cratesGetLatestVersion ω now name = .ok res) :
    ResultInv res name "crates" now := by
  unfold cratesGetLatestVersion at h
  obtain ⟨data, hm, h2⟩ := bind_eq_ok h
  cases data with
  | none =>
      rw [← Except.ok.inj h2]
      exact resultInv_err _ _ _ _ _ rfl rfl rfl rfl
  | some d =>
      obtain ⟨dc⟩ := d
      cases dc with
      | none =>
          rw [← Except.ok.inj h2]
          exact resultInv_err _ _ _ _ _ rfl rfl rfl rfl
      | some c =>
          rw [← Except.ok.inj h2]
          exact resultInv_succ _ _ _ _ _ ⟨rfl, rfl, rfl, rfl, rfl⟩
            ⟨rfl, rfl, rfl, rfl, rfl⟩

lemma cratesCheckVersionExists_inv (ω : NetOracle)
    (now name version : String) (res : PackageResult)
    (h : cratesCheckVersionExists ω now name version = .ok res) :
    ResultInv res name "crates" now := by
  unfold cratesCheckVersionExists at h
  obtain ⟨data, hm, h2⟩ := bind_eq_ok h
  cases data with
  | none =>
      rw [← Except.ok.inj h2]
      exact resultInv_err _ _ _ _ _ rfl rfl rfl rfl
  | some d =>
      rw [← Except.ok.inj h2]
      exact resultInv_succ _ _ _ _ _ ⟨rfl, rfl, rfl, rfl, rfl⟩
        ⟨rfl, rfl, rfl, rfl, rfl⟩

lemma cratesGetPackageInfo_inv (ω : NetOracle) (now name : String)
    (res : PackageResult)
    (h : cratesGetPackageInfo ω now name = .ok res) :
    ResultInv res name "crates" now := by
  unfold cratesGetPackageInfo at h
  obtain ⟨data, hm, h2⟩ := bind_eq_ok h
  cases data with
  | none =>
      rw [← Except.ok.inj h2]
      exact resultInv_err _ _ _ _ _ rfl rfl rfl rfl
  | some d =>
      obtain ⟨dc⟩ := d
      cases dc with
      | none =>
          rw [← Except.ok.inj h2]
          exact resultInv_err _ _ _ _ _ rfl rfl rfl rfl
      | some c =>
          obtain ⟨versionsData, hv, h3⟩ := bind_eq_ok h2
          rw [← Except.ok.inj h3]
          exact resultInv_succ _ _ _ _ _ ⟨rfl, rfl, rfl, rfl, rfl⟩
            ⟨rfl, rfl, rfl, rfl, rfl⟩

lemma mavenGetLatestVersion_inv (ω : NetOracle) (now name : String)
    (res : PackageResult)
    (h : mavenGetLatestVersion ω now name = .ok res) :
    ResultInv res name "maven" now := by
  unfold mavenGetLatestVersion at h
  cases hc : mavenCoord name with
  | none =>
      rw [hc] at h
      rw [← Except.ok.inj h]
      exact resultInv_err _ _ _ _ _ rfl rfl rfl rfl
  | some ga =>
      obtain ⟨g, a⟩ := ga
      rw [hc] at h
      obtain ⟨data, hm, h2⟩ := bind_eq_ok h
      cases data with
      | none =>
          rw [← Except.ok.inj h2]
          exact resultInv_err _ _ _ _ _ rfl rfl rfl rfl
      | some d =>
          obtain ⟨dresp⟩ := d
          cases dresp with
          | none =>
              rw [← Except.ok.inj h2]
              exact resultInv_err _ _ _ _ _ rfl rfl rfl rfl
          | some r =>
              obtain ⟨rdocs⟩ := r
              cases rdocs with
              | none =>
                  rw [← Except.ok.inj h2]
                  exact resultInv_err _ _ _ _ _ rfl rfl rfl rfl
              | some docs =>
                  cases docs with
                  | nil =>
                      rw [← Except.ok.inj h2]
                      exact resultInv_err _ _ _ _ _ rfl rfl rfl rfl
                  | cons doc rest =>
                      rw [← Except.ok.inj h2]
                      exact resultInv_succ _ _ _ _ _
                        ⟨rfl, rfl, rfl, rfl, rfl⟩ ⟨rfl, rfl, rfl, rfl, rfl⟩

lemma mavenCheckVersionExists_inv (ω : NetOracle)
    (now name version : String) (res : PackageResult)
    (h : mavenCheckVersionExists ω now name version = .ok res) :
    ResultInv res name "maven" now := by
  unfold mavenCheckVersionExists at h
  cases hc : mavenCoord name with
  | none =>
      rw [hc] at h
      rw [← Except.ok.inj h]
      exact resultInv_err _ _ _ _ _ rfl rfl rfl rfl
  | some ga =>
      obtain ⟨g, a⟩ := ga
      rw [hc] at h
      obtain ⟨data, hm, h2⟩ := bind_eq_ok h
      rw [← Except.ok.inj h2]
      exact resultInv_succ _ _ _ _ _ ⟨rfl, rfl, rfl, rfl, rfl⟩
        ⟨rfl, rfl, rfl, rfl, rfl⟩

lemma mavenGetPackageInfo_inv (ω : NetOracle) (now name : String)
    (res : PackageResult)
    (h : mavenGetPackageInfo ω now name = .ok res) :
    ResultInv res name "maven" now := by
  unfold mavenGetPackageInfo at h
  cases hc : mavenCoord name with
  | none =>
      rw [hc] at h
      rw [← Except.ok.inj h]
      exact resultInv_err _ _ _ _ _ rfl rfl rfl rfl
  | some ga =>
      obtain ⟨g, a⟩ := ga
      rw [hc] at h
      obtain ⟨data, hm, h2⟩ := bind_eq_ok h
      cases data with
      | none =>
          rw [← Except.ok.inj h2]
          exact resultInv_err _ _ _ _ _ rfl rfl rfl rfl
      | some d =>
          obtain ⟨dresp⟩ := d
          cases dresp with
          | none =>
              rw [← Except.ok.inj h2]
              exact resultInv_err _ _ _ _ _ rfl rfl rfl rfl
          | some r =>
              obtain ⟨rdocs⟩ := r
              cases rdocs with
              | none =>
                  rw [← Except.ok.inj h2]
                  exact resultInv_err _ _ _ _ _ rfl rfl rfl rfl
              | some docs =>
                  cases docs with
                  | nil =>
                      rw [← Except.ok.inj h2]
                      exact resultInv_err _ _ _ _ _ rfl rfl rfl rfl
                  | cons doc rest =>
                      rw [← Except.ok.inj h2]
                      exact resultInv_succ _ _ _ _ _
                        ⟨rfl, rfl, rfl, rfl, rfl⟩ ⟨rfl, rfl, rfl, rfl, rfl⟩

/-- C7: every result any adapter operation returns — built by the success
constructor or the error constructor — and every record synthesized by the
batch catch carries the requested package name, the registry tag and the
generation timestamp, and whenever its `error` field is set, `found` is
`false`. -/
theorem result_invariant :
    (∀ (r : Registry) (ω : NetOracle) (now name : String)
      (res : PackageResult),
      handlerGetLatestVersion r ω now name = .ok res →
      ResultInv res name r.tag now) ∧
    (∀ (r : Registry) (ω : NetOracle) (now name version : String)
      (res : PackageResult),
      handlerCheckVersionExists r ω now name version = .ok res →
      ResultInv res name r.tag now) ∧
    (∀ (r : Registry) (ω : NetOracle) (now name : String)
      (res : PackageResult),
      handlerGetPackageInfo r ω now name = .ok res →
      ResultInv res name r.tag now) ∧
    (∀ (packageName registry now : String) (e : JsThrown),
      ResultInv (synthResult packageName registry now e)
        packageName registry now) := by
  refine ⟨?_, ?_, ?_, ?_⟩
  · intro r ω now name res h
    cases r with
    | npm => exact npmGetLatestVersion_inv ω now name res h
    | pypi => exact pypiGetLatestVersion_inv ω now name res h
    | maven => exact mavenGetLatestVersion_inv ω now name res h
    | nuget => exact nugetGetLatestVersion_inv ω now name res h
    | rubygems => exact rubygemsGetLatestVersion_inv ω now name res h
    | crates => exact cratesGetLatestVersion_inv ω now name res h
    | go => exact goGetLatestVersion_inv ω now name res h
  · intro r ω now name version res h
    cases r with
    | npm => exact npmCheckVersionExists_inv ω now name version res h
    | pypi => exact pypiCheckVersionExists_inv ω now name version res h
    | maven => exact mavenCheckVersionExists_inv ω now name version res h
    | nuget => exact nugetCheckVersionExists_inv ω now name version res h
    | rubygems =>
        exact rubygemsCheckVersionExists_inv ω now name version res h
    | crates => exact cratesCheckVersionExists_inv ω now name version res h
    | go => exact goCheckVersionExists_inv ω now name version res h
  · intro r ω now name res h
    cases r with
    | npm => exact npmGetPackageInfo_inv ω now name res h
    | pypi => exact pypiGetPackageInfo_inv ω now name res h
    | maven => exact mavenGetPackageInfo_inv ω now name res h
    | nuget => exact nugetGetPackageInfo_inv ω now name res h
    | rubygems => exact rubygemsGetPackageInfo_inv ω now name res h
    | crates => exact cratesGetPackageInfo_inv ω now name res h
    | go => exact goGetPackageInfo_inv ω now name res h
  · intro packageName registry now e
    exact ⟨rfl, rfl, rfl, fun _ => rfl⟩

/-- Witness for C7: the invariant holds at the concrete npm not-found
result of the 404 network. -/
theorem result_invariant_witness :
    ResultInv (createErrorResponse "left-pad" "npm"
      "2024-01-01T00:00:00.000Z" "Package not found" {})
      "left-pad" "npm" "2024-01-01T00:00:00.000Z" :=
  result_invariant.1 .npm oracle404 "2024-01-01T00:00:00.000Z" "left-pad"
    (createErrorResponse "left-pad" "npm" "2024-01-01T00:00:00.000Z"
      "Package not found" {}) rfl
